import Mathlib

/-!
Verification of the SFS metadata / garbage-collection core (rgw/driver/sfs).

The development shallowly embeds the parts of the code base the claims talk
about:

* the schema rows that matter to the garbage collector (buckets, objects,
  versioned objects, multiparts, multipart parts) together with the on-disk
  payload files, as plain Lean structures over lists;
* the garbage-collector scan and the repository operations it is tested
  against (these live outside the provided sources, so they are modelled
  from the specification, as marked on each definition);
* the connection-manager pieces that are present in the sources
  (`dbconn.cc`): the WAL commit hook, the `on_open` pragma setup, the
  migration dispatch of `maybe_upgrade_metadata`/`upgrade_metadata`;
* the enum column decoders of `object_state.h` / `version_type.h`;
* the `RetrySQLiteBusy` retry executor (modelled from the specification).

Machine integers do not overflow in any of the embedded fragments, so row
ids are `Nat` and SQLite result codes are `Nat`/`Int` with explicit
primary-code extraction (`% 256`) where extended result codes matter.
-/

namespace SFS

/-- ObjectState from `object_state.h`: OPEN = 0, COMMITTED = 1, DELETED = 2
(LAST_VALUE = DELETED). -/
inductive ObjectState
  | OPEN
  | COMMITTED
  | DELETED
deriving DecidableEq, Repr

/-- VersionType from `version_type.h`: REGULAR = 0, DELETE_MARKER = 1
(LAST_VALUE = DELETE_MARKER). -/
inductive VersionType
  | REGULAR
  | DELETE_MARKER
deriving DecidableEq, Repr

/-- Modelled from the spec: `MultipartState` (multipart_types.h is not among
the provided sources); the states named by the spec and exercised by
test_rgw_sfs_gc.cc. -/
inductive MultipartState
  | INPROGRESS
  | COMPLETE
  | AGGREGATING
  | DONE
  | ABORTED
deriving DecidableEq, Repr

/-- Row of the `buckets` table (dbconn.h `make_table(BUCKETS_TABLE, ...)`),
restricted to the columns the claims depend on (`bucket_id` primary key and
the `deleted` tombstone); the remaining columns are opaque payload for every
operation modelled here. -/
structure DBBucket where
  bucket_id : String
  deleted : Bool
deriving DecidableEq, Repr

/-- Row of the `objects` table (dbconn.h): `uuid` primary key, `bucket_id`
foreign key into `buckets`, `name`. -/
structure DBObject where
  uuid : String
  bucket_id : String
  name : String
deriving DecidableEq, Repr

/-- Row of the `versioned_objects` table (dbconn.h), restricted to the
columns the claims depend on: autoincrement `id`, `object_id` foreign key
into `objects`, `object_state`, `version_id`, `version_type`. -/
structure DBVersionedObject where
  id : Nat
  object_id : String
  object_state : ObjectState
  version_id : String
  version_type : VersionType
deriving DecidableEq, Repr

/-- Row of the `multiparts` table (dbconn.h), restricted to the columns the
claims depend on: autoincrement `id`, `bucket_id` foreign key, unique
`upload_id`, `state`, unique `path_uuid`. -/
structure DBMultipart where
  id : Nat
  bucket_id : String
  upload_id : String
  state : MultipartState
  path_uuid : String
deriving DecidableEq, Repr

/-- Row of the `multiparts_parts` table (dbconn.h): autoincrement `id`,
`upload_id` foreign key into `multiparts`, `part_num`. -/
structure DBMultipartPart where
  id : Nat
  upload_id : String
  part_num : Nat
deriving DecidableEq, Repr

/-- Payload file on disk. A version's payload lives at a path derived from
its version row (delete markers never have one); a multipart part's file
lives at a path derived from the part row (see storeRandomPart /
storeRandomObjectVersion in test_rgw_sfs_gc.cc). Both paths are injective
in the row id, so files are keyed by it. -/
inductive FileId
  | versionFile (version_row_id : Nat)
  | partFile (part_row_id : Nat)
deriving DecidableEq, Repr

/-- State of the store: the five tables the GC touches plus the payload
files on disk. -/
@[ext]
structure Store where
  buckets : List DBBucket
  objects : List DBObject
  versions : List DBVersionedObject
  multiparts : List DBMultipart
  parts : List DBMultipartPart
  files : List FileId
deriving DecidableEq, Repr

/-- Uniqueness invariants the schema enforces (primary keys and UNIQUE
constraints in dbconn.h): bucket ids, object uuids, version row ids,
multipart upload ids and part row ids are unique. -/
def WF (s : Store) : Prop :=
  (s.buckets.map (fun b => b.bucket_id)).Nodup ∧
  (s.objects.map (fun o => o.uuid)).Nodup ∧
  (s.versions.map (fun v => v.id)).Nodup ∧
  (s.multiparts.map (fun m => m.upload_id)).Nodup ∧
  (s.parts.map (fun p => p.id)).Nodup

instance (s : Store) : Decidable (WF s) := by
  unfold WF; infer_instance

/-- True iff some bucket row carries this id with `deleted = true`. -/
def bucketIsDeleted (s : Store) (bid : String) : Bool :=
  s.buckets.any fun b => decide (b.bucket_id = bid) && b.deleted

/-- True iff some bucket row carries this id with `deleted = false`. -/
def bucketIsLive (s : Store) (bid : String) : Bool :=
  s.buckets.any fun b => decide (b.bucket_id = bid) && !b.deleted

/-- True iff the version's parent object is among `os`. -/
def versionHasObjectIn (os : List DBObject) (v : DBVersionedObject) : Bool :=
  os.any fun o => decide (o.uuid = v.object_id)

/-- True iff the part's parent multipart is among `ms`. -/
def partHasMultipartIn (ms : List DBMultipart) (p : DBMultipartPart) : Bool :=
  ms.any fun m => decide (m.upload_id = p.upload_id)

/-- True iff no object row and no multipart row references the bucket. -/
def bucketDrained (objects : List DBObject) (multiparts : List DBMultipart)
    (bid : String) : Bool :=
  !(objects.any fun o => decide (o.bucket_id = bid)) &&
  !(multiparts.any fun m => decide (m.bucket_id = bid))

/-- Modelled from the spec: GC scan step 1 (sfs_gc.cc is not among the
provided sources). For each bucket row with `deleted = true`: remove all
multiparts under the bucket regardless of state (part files from disk
first, then part rows, then the multipart row); remove every version under
every object of the bucket (payload file, then the row; delete markers have
no payload file on disk); remove the object rows; and remove the bucket row
once the bucket has no remaining objects and no remaining multiparts. The
outcome pinned by TestSFSGC.TestDeletedBuckets and
TestSFSGC.TestDeletedBucketsWithMultiparts is that one `process()` call
drains every deleted bucket completely. -/
def processDeletedBuckets (s : Store) : Store :=
  let mps := s.multiparts.filter fun m => bucketIsDeleted s m.bucket_id
  let rparts := s.parts.filter (partHasMultipartIn mps)
  let objs := s.objects.filter fun o => bucketIsDeleted s o.bucket_id
  let vers := s.versions.filter (versionHasObjectIn objs)
  let objects' := s.objects.filter fun o => !bucketIsDeleted s o.bucket_id
  let multiparts' := s.multiparts.filter fun m => !bucketIsDeleted s m.bucket_id
  let buckets' := s.buckets.filter fun b =>
    !(b.deleted && bucketDrained objects' multiparts' b.bucket_id)
  { buckets := buckets'
    objects := objects'
    versions := s.versions.filter fun v => !versionHasObjectIn objs v
    multiparts := multiparts'
    parts := s.parts.filter fun p => !partHasMultipartIn mps p
    files := s.files.filter fun f =>
      match f with
      | FileId.versionFile vid => !(vers.any fun v => decide (v.id = vid))
      | FileId.partFile pid => !(rparts.any fun p => decide (p.id = pid)) }

/-- Bucket id of the version's parent object, when the object row exists. -/
def versionBucket (s : Store) (v : DBVersionedObject) : Option String :=
  (s.objects.find? fun o => decide (o.uuid = v.object_id)).map
    (fun o => o.bucket_id)

/-- True iff the version's chain reaches a live (non-deleted) bucket row. -/
def versionInLiveBucket (s : Store) (v : DBVersionedObject) : Bool :=
  match versionBucket s v with
  | some bid => bucketIsLive s bid
  | none => false

/-- Modelled from the spec: selection for GC scan step 2, "deleted versions
in live buckets". A version is reclaimed iff its `object_state` is DELETED
and it sits in a live bucket; delete markers (`VersionType.DELETE_MARKER`)
are reclaimed only as part of their bucket or parent chain being deleted,
so the per-version category is restricted to REGULAR versions. -/
def versionReclaimable (s : Store) (v : DBVersionedObject) : Bool :=
  decide (v.object_state = ObjectState.DELETED) &&
  decide (v.version_type = VersionType.REGULAR) &&
  versionInLiveBucket s v

/-- Modelled from the spec: GC scan step 2. For each reclaimable version,
delete the payload file (a no-op when the file is missing) and then the
row. -/
def processDeletedVersions (s : Store) : Store :=
  let vs := s.versions.filter (versionReclaimable s)
  { s with
    versions := s.versions.filter fun v => !versionReclaimable s v
    files := s.files.filter fun f =>
      match f with
      | FileId.versionFile vid => !(vs.any fun v => decide (v.id = vid))
      | FileId.partFile _ => true }

/-- Modelled from the spec: selection for GC scan step 3, multiparts in
state DONE or ABORTED sitting in live buckets. -/
def multipartReclaimable (s : Store) (m : DBMultipart) : Bool :=
  (decide (m.state = MultipartState.DONE) ||
   decide (m.state = MultipartState.ABORTED)) &&
  bucketIsLive s m.bucket_id

/-- Modelled from the spec: GC scan step 3. For each reclaimable multipart,
delete every part's file, then the part rows, then the multipart row. -/
def processDoneAndAbortedMultiparts (s : Store) : Store :=
  let mps := s.multiparts.filter (multipartReclaimable s)
  let rparts := s.parts.filter (partHasMultipartIn mps)
  { s with
    multiparts := s.multiparts.filter fun m => !multipartReclaimable s m
    parts := s.parts.filter fun p => !partHasMultipartIn mps p
    files := s.files.filter fun f =>
      match f with
      | FileId.versionFile _ => true
      | FileId.partFile pid => !(rparts.any fun p => decide (p.id = pid)) }

/-- Modelled from the spec: one GC scan (`SFSGC::process()`), the three
categories in order. Each category is drained by iterating queries that
fetch at most `rgw_sfs_gc_max_objects_per_iteration` rows at a time (see
`multipartBatches` below); the cited tests pin that a single `process()`
call empties each category even with a budget of 1. -/
def gc_process (s : Store) : Store :=
  processDoneAndAbortedMultiparts (processDeletedVersions (processDeletedBuckets s))

/-- Groups of at most `n` elements, in order, covering the whole list; the
fuel argument is the list length. -/
def takeBatches (n : Nat) : Nat → List α → List (List α)
  | 0, _ => []
  | _, [] => []
  | fuel + 1, xs => xs.take n :: takeBatches n fuel (xs.drop n)

/-- Splits a list into successive groups of at most `n` elements. -/
def chunksOf (n : Nat) (xs : List α) : List (List α) :=
  takeBatches n xs.length xs

/-- Modelled from the spec: the per-iteration batches in which one GC scan
fetches the DONE/ABORTED multiparts, bounded by the
`rgw_sfs_gc_max_objects_per_iteration` work budget. -/
def multipartBatches (maxObjects : Nat) (s : Store) : List (List DBMultipart) :=
  chunksOf maxObjects (s.multiparts.filter (multipartReclaimable s))

/-- Number of multipart part files currently on disk. -/
def partFileCount (s : Store) : Nat :=
  (s.files.filter fun f =>
    match f with
    | FileId.partFile _ => true
    | FileId.versionFile _ => false).length

/-- Modelled from the spec: `SQLiteBuckets::bucket_empty` (sqlite_buckets.cc
is not among the provided sources). A bucket is empty iff no version row
whose chain reaches the bucket is a COMMITTED REGULAR version; OPEN and
DELETED versions and delete markers do not count toward emptiness. -/
def bucket_empty (s : Store) (bucket_id : String) : Bool :=
  !(s.versions.any fun v =>
    decide (v.object_state = ObjectState.COMMITTED) &&
    decide (v.version_type = VersionType.REGULAR) &&
    (s.objects.any fun o =>
      decide (o.uuid = v.object_id) && decide (o.bucket_id = bucket_id)))

/-- Predicate written from the words of claim C4 alone, for comparison with
`bucket_empty`: "no version whose chain reaches the bucket has object_state
COMMITTED", with no version-type restriction. -/
def bucket_empty_claimed (s : Store) (bucket_id : String) : Bool :=
  !(s.versions.any fun v =>
    decide (v.object_state = ObjectState.COMMITTED) &&
    (s.objects.any fun o =>
      decide (o.uuid = v.object_id) && decide (o.bucket_id = bucket_id)))

/-- Modelled from the spec: `SQLiteBuckets::remove_bucket` deletes the
bucket row by id; a DELETE whose WHERE clause matches no row succeeds and
changes nothing. -/
def remove_bucket (s : Store) (bucket_id : String) : Store :=
  { s with buckets := s.buckets.filter fun b => !decide (b.bucket_id = bucket_id) }

/-- Modelled from the spec:
`SQLiteVersionedObjects::create_new_versioned_object_transact` atomically
ensures the object `(bucket_id, name)` exists (creating it with uuid `oid`
when absent) and inserts a new OPEN REGULAR version with row id `vid`. -/
def create_new_versioned_object_transact (s : Store)
    (bucket_id name version_id oid : String) (vid : Nat) : Store :=
  match s.objects.find? fun o =>
      decide (o.bucket_id = bucket_id) && decide (o.name = name) with
  | some o =>
    { s with versions :=
        s.versions ++ [⟨vid, o.uuid, ObjectState.OPEN, version_id, VersionType.REGULAR⟩] }
  | none =>
    { s with
      objects := s.objects ++ [⟨oid, bucket_id, name⟩]
      versions :=
        s.versions ++ [⟨vid, oid, ObjectState.OPEN, version_id, VersionType.REGULAR⟩] }

/-- Modelled from the spec: `store_versioned_object` replaces the version
row with the same id. -/
def store_versioned_object (s : Store) (v : DBVersionedObject) : Store :=
  { s with versions := s.versions.map fun w => if w.id = v.id then v else w }

/-- Modelled from the spec: `get_last_versioned_object` returns the
highest-id version of the object, if any. -/
def get_last_versioned_object (s : Store) (oid : String) :
    Option DBVersionedObject :=
  (s.versions.filter fun v => decide (v.object_id = oid)).foldl
    (fun acc v =>
      match acc with
      | none => some v
      | some w => if w.id ≤ v.id then some v else some w)
    none

/-- Modelled from the spec:
`SQLiteVersionedObjects::add_delete_marker_transact` appends a DELETE_MARKER
version for the object; the out flag is false when the object does not exist
or its last version is already a delete marker. The marker row carries
object_state COMMITTED and no payload file is created for it (see
deleteMarkTestObject in test_rgw_sfs_gc.cc, which builds markers from the
last COMMITTED version). -/
def add_delete_marker_transact (s : Store) (oid marker_id : String)
    (vid : Nat) : Store × Bool :=
  match get_last_versioned_object s oid with
  | none => (s, false)
  | some last =>
    if last.version_type = VersionType.DELETE_MARKER then (s, false)
    else
      ({ s with versions :=
          s.versions ++
            [⟨vid, oid, ObjectState.COMMITTED, marker_id, VersionType.DELETE_MARKER⟩] },
        true)

/-- Modelled from the spec: `SQLiteMultipart::mark_done` transitions the
multipart with this upload id from AGGREGATING to DONE and reports whether
the transition occurred; any other state is left unchanged. -/
def mark_done (s : Store) (upload_id : String) : Store × Bool :=
  match s.multiparts.find? fun m => decide (m.upload_id = upload_id) with
  | some m =>
    if m.state = MultipartState.AGGREGATING then
      ({ s with multiparts := s.multiparts.map fun w =>
          if w.id = m.id then { w with state := MultipartState.DONE } else w },
        true)
    else (s, false)
  | none => (s, false)

/-- Modelled from the spec: the front-end transition that sets a batch of
version rows (by row id) to object_state DELETED, as deleteTestObjectVersion
does in test_rgw_sfs_gc.cc. -/
def markDeleted (s : Store) (ids : List Nat) : Store :=
  { s with versions := s.versions.map fun v =>
      if v.id ∈ ids then { v with object_state := ObjectState.DELETED } else v }

/-- Look up a multipart row by upload id. -/
def get_multipart (s : Store) (upload_id : String) : Option DBMultipart :=
  s.multiparts.find? fun m => decide (m.upload_id = upload_id)

/-! Hypothesis predicates used by the GC theorems. They restate schema and
front-end invariants: foreign-key completeness of version chains, and the
states a live store is observed in by the cited tests. -/

/-- Every bucket row is live (`deleted = false`). -/
def AllBucketsLive (s : Store) : Prop :=
  ∀ b ∈ s.buckets, b.deleted = false

/-- Foreign-key completeness: every version's object row exists and every
object's bucket row exists. -/
def ChainsComplete (s : Store) : Prop :=
  (∀ v ∈ s.versions, ∃ o ∈ s.objects, o.uuid = v.object_id) ∧
  (∀ o ∈ s.objects, ∃ b ∈ s.buckets, b.bucket_id = o.bucket_id)

/-- No delete-marker row carries object_state DELETED. -/
def MarkersNotDeleted (s : Store) : Prop :=
  ∀ v ∈ s.versions,
    v.version_type = VersionType.DELETE_MARKER →
    v.object_state ≠ ObjectState.DELETED

/-- No version row carries object_state DELETED. -/
def NoDeletedVersions (s : Store) : Prop :=
  ∀ v ∈ s.versions, v.object_state ≠ ObjectState.DELETED

/-- No multipart row is in state DONE or ABORTED. -/
def NoReclaimableMultiparts (s : Store) : Prop :=
  ∀ m ∈ s.multiparts,
    m.state ≠ MultipartState.DONE ∧ m.state ≠ MultipartState.ABORTED

instance (s : Store) : Decidable (AllBucketsLive s) := by
  unfold AllBucketsLive; infer_instance

instance (s : Store) : Decidable (ChainsComplete s) := by
  unfold ChainsComplete; infer_instance

instance (s : Store) : Decidable (MarkersNotDeleted s) := by
  unfold MarkersNotDeleted; infer_instance

instance (s : Store) : Decidable (NoDeletedVersions s) := by
  unfold NoDeletedVersions; infer_instance

instance (s : Store) : Decidable (NoReclaimableMultiparts s) := by
  unfold NoReclaimableMultiparts; infer_instance

/-! Connection manager (`dbconn.cc`), embedded from the provided sources. -/

/-- SQLITE_OK, the result code the WAL hook always returns. -/
def SQLITE_OK : Int := 0

/-- Checkpoint kind requested by one invocation of the commit hook. -/
inductive CheckpointRequest
  | noCheckpoint
  | passive
  | truncate
deriving DecidableEq, Repr

/-- Embeds `sqlite_wal_hook_callback` (dbconn.cc lines 44-73): on every
commit, with the committed frame count, either do nothing (frame count at
most `rgw_sfs_wal_checkpoint_passive_frames`), request a passive checkpoint,
or request a truncating checkpoint (frame count above
`rgw_sfs_wal_checkpoint_truncate_frames`). The checkpoint's own result code
`checkpoint_rc` is only logged; the hook returns SQLITE_OK regardless. -/
def sqlite_wal_hook_callback (passive_frames truncate_frames : Int)
    (frames : Int) (checkpoint_rc : Int) : CheckpointRequest × Int :=
  if frames ≤ passive_frames then (CheckpointRequest.noCheckpoint, SQLITE_OK)
  else
    let mode := if frames > truncate_frames then CheckpointRequest.truncate
                else CheckpointRequest.passive
    let _ := checkpoint_rc
    (mode, SQLITE_OK)

/-- Configuration keys consumed by `DBConn`'s open path. -/
structure SFSConfig where
  wal_checkpoint_use_sqlite_default : Bool
  sqlite_profile : Bool
deriving DecidableEq, Repr

/-- Per-connection settings installed on a sqlite handle. -/
structure ConnState where
  extended_result_codes : Bool
  busy_timeout_ms : Nat
  wal_hook_installed : Bool
  profile_hook_installed : Bool
deriving DecidableEq, Repr

/-- Embeds the `storage->on_open` callback of `DBConn::DBConn` (dbconn.cc
lines 131-162): extended result codes on, `sqlite3_busy_timeout(db, 10000)`,
WAL/synchronous/temp-store/LIKE/mmap/journal-size pragmas, the WAL hook
unless `rgw_sfs_wal_checkpoint_use_sqlite_default` is set, and the profile
trace when enabled. -/
def storage_on_open (cfg : SFSConfig) : ConnState :=
  { extended_result_codes := true
    busy_timeout_ms := 10000
    wal_hook_installed := !cfg.wal_checkpoint_use_sqlite_default
    profile_hook_installed := cfg.sqlite_profile }

/-- Embeds the tail of `DBConn::DBConn` (dbconn.cc lines 163-164): the main
handle runs `storage->open_forever()` (which fires `on_open`) and then
`storage->busy_timeout(5000)`. -/
def dbconn_open_main_handle (cfg : SFSConfig) : ConnState :=
  let c := storage_on_open cfg
  { c with busy_timeout_ms := 5000 }

/-- Embeds `DBConn::get_storage` for a thread without a handle (dbconn.cc
lines 175-188): the new pool entry copies the main storage's configuration
(including `on_open`), runs `open_forever()` (firing `on_open`) and then
`busy_timeout(5000)`. -/
def dbconn_open_thread_handle (cfg : SFSConfig) : ConnState :=
  let c := storage_on_open cfg
  { c with busy_timeout_ms := 5000 }

/-! Schema-version migration (`dbconn.cc` / `dbconn.h`), embedded from the
provided sources. -/

/-- Current db version (dbconn.h). -/
def SFS_METADATA_VERSION : Nat := 4

/-- Minimum required version to upgrade the db (dbconn.h). -/
def SFS_METADATA_MIN_VERSION : Nat := 4

/-- Metadata database as the migration sees it: its `user_version` pragma
and the list of upgrade scripts that have run, in order (recording `v` for
the `v` to `v+1` script). -/
structure MetaDB where
  user_version : Nat
  applied_steps : List Nat
deriving DecidableEq, Repr

/-- Versions for which `upgrade_metadata` has a dedicated DDL script:
`upgrade_metadata_from_v1`, `upgrade_metadata_from_v2`,
`upgrade_metadata_from_v4` (dbconn.cc); for any other current version the
loop body runs no script and still bumps `user_version`. -/
def has_upgrade_step (v : Nat) : Bool :=
  decide (v = 1) || decide (v = 2) || decide (v = 4)

/-- One body of the `upgrade_metadata` while loop before the version bump:
run the script for the current version when one exists; `stepFails` models
the sqlite error path of the script. -/
def run_upgrade_step (stepFails : Nat → Bool) (v : Nat) (db : MetaDB) :
    Except String MetaDB :=
  if has_upgrade_step v then
    if stepFails v then
      Except.error ("Error upgrading from version " ++ toString v)
    else Except.ok { db with applied_steps := db.applied_steps ++ [v] }
  else Except.ok db

/-- Embeds the `upgrade_metadata` while loop (dbconn.cc lines 382-419) with
explicit fuel: assert the current version is within
[SFS_METADATA_MIN_VERSION, SFS_METADATA_VERSION] (`ceph_assert` aborts the
process, modelled as a fatal error), stop at SFS_METADATA_VERSION, otherwise
run the step for the current version (failure fatal) and increment
`user_version`. -/
def upgrade_metadata_loop (stepFails : Nat → Bool) (db : MetaDB) :
    Nat → Except String MetaDB
  | 0 => Except.ok db
  | fuel + 1 =>
    if db.user_version > SFS_METADATA_VERSION ∨
        db.user_version < SFS_METADATA_MIN_VERSION then
      Except.error "ceph_assert failed in upgrade_metadata"
    else if db.user_version = SFS_METADATA_VERSION then Except.ok db
    else
      match run_upgrade_step stepFails db.user_version db with
      | Except.error e => Except.error e
      | Except.ok db2 =>
        upgrade_metadata_loop stepFails
          { db2 with user_version := db2.user_version + 1 } fuel

/-- Embeds `upgrade_metadata` (dbconn.cc): the loop with enough fuel to
reach SFS_METADATA_VERSION from any in-range starting version. -/
def upgrade_metadata (stepFails : Nat → Bool) (db : MetaDB) :
    Except String MetaDB :=
  upgrade_metadata_loop stepFails db (SFS_METADATA_VERSION + 1)

/-- Embeds `DBConn::maybe_upgrade_metadata` (dbconn.cc lines 421-443):
version 0 stamps SFS_METADATA_VERSION and returns; an in-range older version
runs `upgrade_metadata`; below SFS_METADATA_MIN_VERSION fails "too far
behind"; above SFS_METADATA_VERSION fails "too far ahead"; exactly
SFS_METADATA_VERSION does nothing. -/
def maybe_upgrade_metadata (stepFails : Nat → Bool) (db_version : Nat) :
    Except String MetaDB :=
  if db_version = 0 then Except.ok ⟨SFS_METADATA_VERSION, []⟩
  else if db_version < SFS_METADATA_VERSION ∧
      db_version ≥ SFS_METADATA_MIN_VERSION then
    upgrade_metadata stepFails ⟨db_version, []⟩
  else if db_version < SFS_METADATA_MIN_VERSION then
    Except.error "Existing metadata too far behind! Unable to upgrade schema!"
  else if db_version > SFS_METADATA_VERSION then
    Except.error "Existing metadata too far ahead! Please upgrade!"
  else Except.ok ⟨db_version, []⟩

/-! Retry executor (`RetrySQLiteBusy`), modelled from the spec (retry.h is
not among the provided sources; behavior pinned by test_rgw_sfs_retry.cc). -/

/-- SQLITE_BUSY primary result code. -/
def SQLITE_BUSY : Nat := 5

/-- SQLITE_CORRUPT primary result code. -/
def SQLITE_CORRUPT : Nat := 11

/-- SQLITE_MISUSE primary result code. -/
def SQLITE_MISUSE : Nat := 21

/-- SQLITE_NOTADB primary result code. -/
def SQLITE_NOTADB : Nat := 26

/-- SQLITE_BUSY_SNAPSHOT extended result code (SQLITE_BUSY with the second
extended tag in the high byte). -/
def SQLITE_BUSY_SNAPSHOT : Nat := SQLITE_BUSY + 2 * 256

/-- Primary result code of a possibly extended sqlite result code (its low
byte). -/
def primary_result_code (code : Nat) : Nat := code % 256

/-- Modelled from the spec: transient classification, the BUSY class of
primary codes including extended codes such as SQLITE_BUSY_SNAPSHOT. -/
def is_transient_error (code : Nat) : Bool :=
  decide (primary_result_code code = SQLITE_BUSY)

/-- Modelled from the spec: critical classification, corruption and misuse
class codes (corrupt / malformed, misuse, not-a-database). -/
def is_critical_error (code : Nat) : Bool :=
  decide (primary_result_code code = SQLITE_CORRUPT) ||
  decide (primary_result_code code = SQLITE_MISUSE) ||
  decide (primary_result_code code = SQLITE_NOTADB)

/-- One invocation of the wrapped closure: it either returns a value or
throws a sqlite error carrying a result code. The argument of the function
being retried is the zero-based attempt number. -/
inductive ClosureOutcome (A : Type)
  | ok (value : A)
  | raise (code : Nat)

/-- Observable state of a finished `RetrySQLiteBusy`: `run()`'s return
value, and the `retries()`, `successful()`, `failed_error()` accessors. -/
structure RetryState (A : Type) where
  value : Option A
  retries : Nat
  successful : Bool
  failed_error : Option Nat
deriving DecidableEq, Repr

/-- Result of `RetrySQLiteBusy::run`: a normal finish, process termination
on a critical error ("Critical SQLite error"), or a non-transient
non-critical exception propagated unmodified. -/
inductive RunResult (A : Type)
  | finished (st : RetryState A)
  | terminated (code : Nat)
  | propagated (code : Nat)
deriving DecidableEq, Repr

/-- Modelled from the spec: the bounded number of attempts of
`RetrySQLiteBusy`. -/
def RETRY_MAX_RETRIES : Nat := 10

/-- Modelled from the spec: the retry loop of `RetrySQLiteBusy::run`. Each
iteration calls the closure; a value finishes successfully with the current
retry count; a critical error terminates the process; a transient error is
recorded and retried after a short delay; any other error propagates. When
the attempts are exhausted the result carries no value and the last
transient error code. -/
def retry_loop (f : Nat → ClosureOutcome A) (attempt : Nat)
    (lastErr : Option Nat) : Nat → RunResult A
  | 0 => RunResult.finished ⟨none, attempt, false, lastErr⟩
  | remaining + 1 =>
    match f attempt with
    | ClosureOutcome.ok v => RunResult.finished ⟨some v, attempt, true, none⟩
    | ClosureOutcome.raise c =>
      if is_critical_error c then RunResult.terminated c
      else if is_transient_error c then retry_loop f (attempt + 1) (some c) remaining
      else RunResult.propagated c

/-- Modelled from the spec: `RetrySQLiteBusy::run()`. -/
def retry_run (f : Nat → ClosureOutcome A) : RunResult A :=
  retry_loop f 0 none RETRY_MAX_RETRIES

/-! Enum column decoders (`object_state.h` lines 67-81, `version_type.h`
lines 41-55), embedded from the provided sources. -/

/-- Value found in a sqlite column or sqlite3_value: NULL or an integer. -/
inductive ColumnValue
  | null
  | integer (i : Int)
deriving DecidableEq, Repr

/-- Result of a decoder: a value, or a `ceph_abort_msg` process abort. The
decoded enum is represented by the raw integer that the C++ `static_cast`
produces, which preserves any out-of-range value. -/
inductive DecodeResult (A : Type)
  | ok (value : A)
  | aborted (msg : String)
deriving DecidableEq, Repr

/-- Embeds `get_col_from_db` for ObjectState (object_state.h lines 67-73):
abort with "cannot make enum value from NULL" when the column is NULL,
otherwise `static_cast` the integer unchecked. -/
def object_state_get_col_from_db : ColumnValue → DecodeResult Int
  | ColumnValue.null => DecodeResult.aborted "cannot make enum value from NULL"
  | ColumnValue.integer i => DecodeResult.ok i

/-- Embeds `get_val_from_db` for ObjectState (object_state.h lines 75-81),
identical logic on a sqlite3_value. -/
def object_state_get_val_from_db : ColumnValue → DecodeResult Int
  | ColumnValue.null => DecodeResult.aborted "cannot make enum value from NULL"
  | ColumnValue.integer i => DecodeResult.ok i

/-- Embeds `get_col_from_db` for VersionType (version_type.h lines 41-47). -/
def version_type_get_col_from_db : ColumnValue → DecodeResult Int
  | ColumnValue.null => DecodeResult.aborted "cannot make enum value from NULL"
  | ColumnValue.integer i => DecodeResult.ok i

/-- Embeds `get_val_from_db` for VersionType (version_type.h lines 49-55). -/
def version_type_get_val_from_db : ColumnValue → DecodeResult Int
  | ColumnValue.null => DecodeResult.aborted "cannot make enum value from NULL"
  | ColumnValue.integer i => DecodeResult.ok i

/-- Integer range of the declared ObjectState enumerators (OPEN = 0 through
LAST_VALUE = DELETED = 2). -/
def objectStateInRange (i : Int) : Bool :=
  decide (0 ≤ i) && decide (i ≤ 2)

/-- Integer range of the declared VersionType enumerators (REGULAR = 0
through LAST_VALUE = DELETE_MARKER = 1). -/
def versionTypeInRange (i : Int) : Bool :=
  decide (0 ≤ i) && decide (i ≤ 1)

/-! Conclusion predicates of the GC theorems. -/

/-- Everything under the bucket with id `bid` is gone in `post`: its bucket
row, its object rows, the version rows chained to its objects, its
multipart rows, their part rows, and the payload and part files of those
versions and parts (rows and files identified against the pre-state `s`). -/
def GoneUnderBucket (s post : Store) (bid : String) : Prop :=
  (∀ b' ∈ post.buckets, b'.bucket_id ≠ bid) ∧
  (∀ o ∈ post.objects, o.bucket_id ≠ bid) ∧
  (∀ v ∈ post.versions, ∀ o ∈ s.objects, o.bucket_id = bid →
    v.object_id ≠ o.uuid) ∧
  (∀ m ∈ post.multiparts, m.bucket_id ≠ bid) ∧
  (∀ p ∈ post.parts, ∀ m ∈ s.multiparts, m.bucket_id = bid →
    p.upload_id ≠ m.upload_id) ∧
  (∀ vid, FileId.versionFile vid ∈ post.files →
    ∀ v ∈ s.versions, v.id = vid →
    ∀ o ∈ s.objects, o.uuid = v.object_id → o.bucket_id ≠ bid) ∧
  (∀ pid, FileId.partFile pid ∈ post.files →
    ∀ p ∈ s.parts, p.id = pid →
    ∀ m ∈ s.multiparts, m.upload_id = p.upload_id → m.bucket_id ≠ bid)

/-- The deleted-buckets category of the scan leaves the live bucket `bid`
and everything under it in place: its bucket rows, objects, versions,
multiparts, parts, and the version and part files whose owning rows all
chain to `bid`. -/
def LiveBucketUntouchedByStep1 (s : Store) (bid : String) : Prop :=
  (∀ b ∈ s.buckets, b.bucket_id = bid → b ∈ (processDeletedBuckets s).buckets) ∧
  (∀ o ∈ s.objects, o.bucket_id = bid → o ∈ (processDeletedBuckets s).objects) ∧
  (∀ v ∈ s.versions, ∀ o ∈ s.objects, o.bucket_id = bid →
    o.uuid = v.object_id → v ∈ (processDeletedBuckets s).versions) ∧
  (∀ m ∈ s.multiparts, m.bucket_id = bid →
    m ∈ (processDeletedBuckets s).multiparts) ∧
  (∀ p ∈ s.parts, ∀ m ∈ s.multiparts, m.bucket_id = bid →
    m.upload_id = p.upload_id → p ∈ (processDeletedBuckets s).parts) ∧
  (∀ vid, FileId.versionFile vid ∈ s.files →
    (∀ v ∈ s.versions, v.id = vid →
      ∃ o ∈ s.objects, o.uuid = v.object_id ∧ o.bucket_id = bid) →
    FileId.versionFile vid ∈ (processDeletedBuckets s).files) ∧
  (∀ pid, FileId.partFile pid ∈ s.files →
    (∀ p ∈ s.parts, p.id = pid →
      ∃ m ∈ s.multiparts, m.upload_id = p.upload_id ∧ m.bucket_id = bid) →
    FileId.partFile pid ∈ (processDeletedBuckets s).files)

/-- Conclusion of the deleted-bucket reclamation claim: one scan removes
every deleted bucket with all of its transitive dependents and payload
files; a bucket row is removed only when no objects and no multiparts
remain under it; and the deleted-buckets category leaves live buckets and
their contents untouched (live bucket rows also survive the whole scan). -/
def DeletedBucketsReclaimed (s : Store) : Prop :=
  (∀ b ∈ s.buckets, b.deleted = true →
    GoneUnderBucket s (gc_process s) b.bucket_id) ∧
  (∀ b ∈ s.buckets, b ∉ (gc_process s).buckets →
    (∀ o ∈ (gc_process s).objects, o.bucket_id ≠ b.bucket_id) ∧
    (∀ m ∈ (gc_process s).multiparts, m.bucket_id ≠ b.bucket_id)) ∧
  (∀ b ∈ s.buckets, b.deleted = false →
    LiveBucketUntouchedByStep1 s b.bucket_id ∧ b ∈ (gc_process s).buckets)

/-- Conclusion of the deleted-version reclamation claim over a store of
live buckets: one scan removes exactly the version rows in state DELETED,
keeps every version file whose owning rows are all non-DELETED (and only
those), and never reclaims OPEN or COMMITTED versions or delete markers. -/
def DeletedVersionsReclaimed (s : Store) : Prop :=
  ((gc_process s).versions =
    s.versions.filter fun v => !decide (v.object_state = ObjectState.DELETED)) ∧
  (∀ vid, FileId.versionFile vid ∈ (gc_process s).files ↔
    (FileId.versionFile vid ∈ s.files ∧
      ∀ v ∈ s.versions, v.id = vid → v.object_state ≠ ObjectState.DELETED)) ∧
  (∀ v ∈ s.versions,
    (v.object_state = ObjectState.OPEN ∨
     v.object_state = ObjectState.COMMITTED ∨
     v.version_type = VersionType.DELETE_MARKER) →
    v ∈ (gc_process s).versions)

/-! Concrete stores replicating the cited test scenarios. -/

/-- Part rows `part_num = 1 .. n` for one upload, with consecutive row ids
starting at `firstId` (as consecutive `storage.insert` calls produce). -/
def mkPartRows (upload : String) (firstId n : Nat) : List DBMultipartPart :=
  (List.range n).map fun i => ⟨firstId + i, upload, i + 1⟩

/-- Part files for the rows made by `mkPartRows firstId n`. -/
def mkPartFiles (firstId n : Nat) : List FileId :=
  (List.range n).map fun i => FileId.partFile (firstId + i)

/-- Buckets of the TestSFSGC scenarios: two live buckets. -/
def gcTestBuckets : List DBBucket :=
  [⟨"test_bucket_1", false⟩, ⟨"test_bucket_2", false⟩]

/-- Objects of the TestSFSGC scenarios: `obj_1` in bucket 1, `obj_2` in
bucket 2. -/
def gcTestObjects : List DBObject :=
  [⟨"uuid_obj1", "test_bucket_1", "obj_1"⟩,
   ⟨"uuid_obj2", "test_bucket_2", "obj_2"⟩]

/-- Versions of the TestSFSGC scenarios: three COMMITTED versions on
`obj_1`, two on `obj_2` (row ids 1..5). -/
def gcTestVersions : List DBVersionedObject :=
  [⟨1, "uuid_obj1", ObjectState.COMMITTED, "1", VersionType.REGULAR⟩,
   ⟨2, "uuid_obj1", ObjectState.COMMITTED, "2", VersionType.REGULAR⟩,
   ⟨3, "uuid_obj1", ObjectState.COMMITTED, "3", VersionType.REGULAR⟩,
   ⟨4, "uuid_obj2", ObjectState.COMMITTED, "4", VersionType.REGULAR⟩,
   ⟨5, "uuid_obj2", ObjectState.COMMITTED, "5", VersionType.REGULAR⟩]

/-- Multiparts of TestSFSGC.TestDoneAndAbortedMultiparts: INPROGRESS with
10 parts, COMPLETE with 5, AGGREGATING with 20, DONE with 10, DONE with 5,
ABORTED with 5. -/
def doneAbortedMultiparts : List DBMultipart :=
  [⟨1, "test_bucket_1", "multipart1", MultipartState.INPROGRESS, "pu1"⟩,
   ⟨2, "test_bucket_2", "multipart2", MultipartState.COMPLETE, "pu2"⟩,
   ⟨3, "test_bucket_1", "multipart3", MultipartState.AGGREGATING, "pu3"⟩,
   ⟨4, "test_bucket_1", "multipart4", MultipartState.DONE, "pu4"⟩,
   ⟨5, "test_bucket_1", "multipart5", MultipartState.DONE, "pu5"⟩,
   ⟨6, "test_bucket_1", "multipart6", MultipartState.ABORTED, "pu6"⟩]

/-- Part rows of TestSFSGC.TestDoneAndAbortedMultiparts (55 parts, row ids
1..55). -/
def doneAbortedParts : List DBMultipartPart :=
  mkPartRows "multipart1" 1 10 ++ mkPartRows "multipart2" 11 5 ++
  mkPartRows "multipart3" 16 20 ++ mkPartRows "multipart4" 36 10 ++
  mkPartRows "multipart5" 46 5 ++ mkPartRows "multipart6" 51 5

/-- Store of TestSFSGC.TestDoneAndAbortedMultiparts right before the first
scan: 5 version files and 55 part files, 60 payload files in total. -/
def doneAbortedStore : Store :=
  { buckets := gcTestBuckets
    objects := gcTestObjects
    versions := gcTestVersions
    multiparts := doneAbortedMultiparts
    parts := doneAbortedParts
    files :=
      (gcTestVersions.map fun v => FileId.versionFile v.id) ++
      mkPartFiles 1 10 ++ mkPartFiles 11 5 ++ mkPartFiles 16 20 ++
      mkPartFiles 36 10 ++ mkPartFiles 46 5 ++ mkPartFiles 51 5 }

/-- State after the first scan of TestSFSGC.TestDoneAndAbortedMultiparts. -/
def doneAbortedScan1 : Store := gc_process doneAbortedStore

/-- State and out flag after `mark_done("multipart3")` on the scanned
store. -/
def doneAbortedMarked : Store × Bool := mark_done doneAbortedScan1 "multipart3"

/-- State after the second scan of
TestSFSGC.TestDoneAndAbortedMultiparts. -/
def doneAbortedScan2 : Store := gc_process doneAbortedMarked.1

/-- Store built exactly from the figures in claim C3: multiparts
INPROGRESS with 10 parts, COMPLETE with 5, AGGREGATING with 20, DONE with
10 and ABORTED with 5, for an initial part-file count of 50 (the claim's
numbers; the cited test actually creates a sixth multipart, a second DONE
one with 5 more parts). -/
def claimC3Store : Store :=
  { buckets := gcTestBuckets
    objects := []
    versions := []
    multiparts :=
      [⟨1, "test_bucket_1", "multipart1", MultipartState.INPROGRESS, "pu1"⟩,
       ⟨2, "test_bucket_2", "multipart2", MultipartState.COMPLETE, "pu2"⟩,
       ⟨3, "test_bucket_1", "multipart3", MultipartState.AGGREGATING, "pu3"⟩,
       ⟨4, "test_bucket_1", "multipart4", MultipartState.DONE, "pu4"⟩,
       ⟨5, "test_bucket_1", "multipart5", MultipartState.ABORTED, "pu5"⟩]
    parts :=
      mkPartRows "multipart1" 1 10 ++ mkPartRows "multipart2" 11 5 ++
      mkPartRows "multipart3" 16 20 ++ mkPartRows "multipart4" 36 10 ++
      mkPartRows "multipart5" 46 5
    files :=
      mkPartFiles 1 10 ++ mkPartFiles 11 5 ++ mkPartFiles 16 20 ++
      mkPartFiles 36 10 ++ mkPartFiles 46 5 }

/-- Store after `createDBBucketBasic` in
TestSFSSQLiteBuckets.TestBucketEmpty: one live bucket, nothing else. -/
def bucketEmptyS0 : Store :=
  { buckets := [⟨"bucket1_id", false⟩]
    objects := []
    versions := []
    multiparts := []
    parts := []
    files := [] }

/-- After `create_new_versioned_object_transact("bucket1_id", "object_1",
"version1")`: the object and an OPEN version. -/
def bucketEmptyS1 : Store :=
  create_new_versioned_object_transact bucketEmptyS0
    "bucket1_id" "object_1" "version1" "uuid_obj1" 1

/-- After committing version 1. -/
def bucketEmptyS2 : Store :=
  store_versioned_object bucketEmptyS1
    ⟨1, "uuid_obj1", ObjectState.COMMITTED, "version1", VersionType.REGULAR⟩

/-- After `add_delete_marker_transact` (store and out flag). -/
def bucketEmptyS3 : Store × Bool :=
  add_delete_marker_transact bucketEmptyS2 "uuid_obj1" "delete_maker_1" 2

/-- After transitioning the COMMITTED version 1 to DELETED. -/
def bucketEmptyS4 : Store :=
  store_versioned_object bucketEmptyS3.1
    ⟨1, "uuid_obj1", ObjectState.DELETED, "version1", VersionType.REGULAR⟩

/-- Store of TestSFSSQLiteBuckets.RemoveUserThatDoesNotExist: three stored
buckets, none with id "testX". -/
def removeBucketStore : Store :=
  { buckets :=
      [⟨"BucketID1", false⟩, ⟨"BucketID2", false⟩, ⟨"BucketID3", false⟩]
    objects := []
    versions := []
    multiparts := []
    parts := []
    files := [] }

/-- Witness store for the deleted-bucket claim: bucket 1 live with a
COMMITTED version and a COMPLETE multipart, bucket 2 deleted with an OPEN
version, a delete marker and an INPROGRESS multipart with one part. -/
def deletedBucketStore : Store :=
  { buckets := [⟨"test_bucket_1", false⟩, ⟨"test_bucket_2", true⟩]
    objects :=
      [⟨"uuid_obj1", "test_bucket_1", "obj_1"⟩,
       ⟨"uuid_obj2", "test_bucket_2", "obj_2"⟩]
    versions :=
      [⟨1, "uuid_obj1", ObjectState.COMMITTED, "1", VersionType.REGULAR⟩,
       ⟨2, "uuid_obj2", ObjectState.OPEN, "2", VersionType.REGULAR⟩,
       ⟨3, "uuid_obj2", ObjectState.COMMITTED, "3", VersionType.DELETE_MARKER⟩]
    multiparts :=
      [⟨1, "test_bucket_1", "multipart1", MultipartState.COMPLETE, "pu1"⟩,
       ⟨2, "test_bucket_2", "multipart2", MultipartState.INPROGRESS, "pu2"⟩]
    parts := mkPartRows "multipart1" 1 1 ++ mkPartRows "multipart2" 2 1
    files :=
      [FileId.versionFile 1, FileId.versionFile 2,
       FileId.partFile 1, FileId.partFile 2] }

/-- Witness store for the deleted-version claim: one live bucket, one
object, one COMMITTED version with its payload file, no multiparts. -/
def deletedVersionStore : Store :=
  { buckets := [⟨"test_bucket_1", false⟩]
    objects := [⟨"uuid_obj1", "test_bucket_1", "obj_1"⟩]
    versions :=
      [⟨1, "uuid_obj1", ObjectState.COMMITTED, "1", VersionType.REGULAR⟩,
       ⟨2, "uuid_obj1", ObjectState.COMMITTED, "2", VersionType.REGULAR⟩]
    multiparts := []
    parts := []
    files := [FileId.versionFile 1, FileId.versionFile 2] }

/-- Evaluated facts of the TestSFSGC.TestDoneAndAbortedMultiparts replica:
payload-file and part-file counts before and after each scan, the removed
and surviving multipart rows, the `mark_done` transition, and the iteration
count of the DONE/ABORTED category under a budget of 1. -/
def doneAbortedScenarioChecks : Prop :=
  doneAbortedStore.files.length = 60 ∧
  partFileCount doneAbortedStore = 55 ∧
  doneAbortedScan1.files.length = 40 ∧
  partFileCount doneAbortedScan1 = 35 ∧
  get_multipart doneAbortedScan1 "multipart4" = none ∧
  get_multipart doneAbortedScan1 "multipart5" = none ∧
  get_multipart doneAbortedScan1 "multipart6" = none ∧
  (get_multipart doneAbortedScan1 "multipart1").isSome = true ∧
  (get_multipart doneAbortedScan1 "multipart2").isSome = true ∧
  (get_multipart doneAbortedScan1 "multipart3").isSome = true ∧
  doneAbortedMarked.2 = true ∧
  doneAbortedScan2.files.length = 20 ∧
  partFileCount doneAbortedScan2 = 15 ∧
  get_multipart doneAbortedScan2 "multipart3" = none ∧
  (get_multipart doneAbortedScan2 "multipart1").isSome = true ∧
  (get_multipart doneAbortedScan2 "multipart2").isSome = true ∧
  (doneAbortedScan2.multiparts.map fun m => m.state) =
    [MultipartState.INPROGRESS, MultipartState.COMPLETE] ∧
  (multipartBatches 1 doneAbortedStore).length = 3

instance : Decidable doneAbortedScenarioChecks := by
  unfold doneAbortedScenarioChecks; infer_instance

/-! Projection lemmas for the three scan steps (all definitional). -/

theorem pdb_buckets (s : Store) :
    (processDeletedBuckets s).buckets =
      s.buckets.filter fun b =>
        !(b.deleted && bucketDrained
          (s.objects.filter fun o => !bucketIsDeleted s o.bucket_id)
          (s.multiparts.filter fun m => !bucketIsDeleted s m.bucket_id)
          b.bucket_id) := rfl

theorem pdb_objects (s : Store) :
    (processDeletedBuckets s).objects =
      s.objects.filter fun o => !bucketIsDeleted s o.bucket_id := rfl

theorem pdb_versions (s : Store) :
    (processDeletedBuckets s).versions =
      s.versions.filter fun v =>
        !versionHasObjectIn
          (s.objects.filter fun o => bucketIsDeleted s o.bucket_id) v := rfl

theorem pdb_multiparts (s : Store) :
    (processDeletedBuckets s).multiparts =
      s.multiparts.filter fun m => !bucketIsDeleted s m.bucket_id := rfl

theorem pdb_parts (s : Store) :
    (processDeletedBuckets s).parts =
      s.parts.filter fun p =>
        !partHasMultipartIn
          (s.multiparts.filter fun m => bucketIsDeleted s m.bucket_id) p := rfl

theorem pdb_files (s : Store) :
    (processDeletedBuckets s).files =
      s.files.filter fun f =>
        match f with
        | FileId.versionFile vid =>
          !((s.versions.filter (versionHasObjectIn
              (s.objects.filter fun o => bucketIsDeleted s o.bucket_id))).any
            fun v => decide (v.id = vid))
        | FileId.partFile pid =>
          !((s.parts.filter (partHasMultipartIn
              (s.multiparts.filter fun m => bucketIsDeleted s m.bucket_id))).any
            fun p => decide (p.id = pid)) := rfl

theorem pdv_versions (s : Store) :
    (processDeletedVersions s).versions =
      s.versions.filter fun v => !versionReclaimable s v := rfl

theorem pdv_files (s : Store) :
    (processDeletedVersions s).files =
      s.files.filter fun f =>
        match f with
        | FileId.versionFile vid =>
          !((s.versions.filter (versionReclaimable s)).any
            fun v => decide (v.id = vid))
        | FileId.partFile _ => true := rfl

theorem pdam_multiparts (s : Store) :
    (processDoneAndAbortedMultiparts s).multiparts =
      s.multiparts.filter fun m => !multipartReclaimable s m := rfl

theorem pdam_parts (s : Store) :
    (processDoneAndAbortedMultiparts s).parts =
      s.parts.filter fun p =>
        !partHasMultipartIn (s.multiparts.filter (multipartReclaimable s)) p := rfl

theorem pdam_files (s : Store) :
    (processDoneAndAbortedMultiparts s).files =
      s.files.filter fun f =>
        match f with
        | FileId.versionFile _ => true
        | FileId.partFile pid =>
          !((s.parts.filter (partHasMultipartIn
              (s.multiparts.filter (multipartReclaimable s)))).any
            fun p => decide (p.id = pid)) := rfl

/-! Basic facts about the deleted-bucket test and the drain condition. -/

theorem bucketIsDeleted_of_mem {s : Store} {b : DBBucket}
    (hb : b ∈ s.buckets) (hd : b.deleted = true) :
    bucketIsDeleted s b.bucket_id = true := by
  rw [bucketIsDeleted, List.any_eq_true]
  exact ⟨b, hb, by simp [hd]⟩

theorem bucketIsDeleted_eq_false {s : Store} {b : DBBucket}
    (hN : (s.buckets.map fun b => b.bucket_id).Nodup)
    (hb : b ∈ s.buckets) (hd : b.deleted = false) :
    bucketIsDeleted s b.bucket_id = false := by
  rw [bucketIsDeleted]
  apply List.any_eq_false.mpr
  intro b' hb'
  simp only [Bool.and_eq_true, decide_eq_true_eq, not_and]
  intro heq
  have : b' = b := List.inj_on_of_nodup_map hN hb' hb heq
  subst this
  simp [hd]

theorem bucketDrained_after_filter {s : Store} {bid : String}
    (h : bucketIsDeleted s bid = true) :
    bucketDrained
      (s.objects.filter fun o => !bucketIsDeleted s o.bucket_id)
      (s.multiparts.filter fun m => !bucketIsDeleted s m.bucket_id)
      bid = true := by
  rw [bucketDrained]
  have ho : (s.objects.filter fun o => !bucketIsDeleted s o.bucket_id).any
      (fun o => decide (o.bucket_id = bid)) = false := by
    apply List.any_eq_false.mpr
    intro o ho
    rcases List.mem_filter.mp ho with ⟨_, hno⟩
    simp only [decide_eq_true_eq]
    intro heq
    rw [heq] at hno
    simp [h] at hno
  have hm : (s.multiparts.filter fun m => !bucketIsDeleted s m.bucket_id).any
      (fun m => decide (m.bucket_id = bid)) = false := by
    apply List.any_eq_false.mpr
    intro m hm
    rcases List.mem_filter.mp hm with ⟨_, hnm⟩
    simp only [decide_eq_true_eq]
    intro heq
    rw [heq] at hnm
    simp [h] at hnm
  rw [ho, hm]
  rfl

/-! WAL hook and connection-open behavior. -/

/-- C6: the WAL hook, invoked on every commit with the committed frame
count, requests no checkpoint when the count is at most
`wal_checkpoint_passive_frames`, a passive checkpoint when it is above that
but at most `wal_checkpoint_truncate_frames`, and a truncating checkpoint
above that; it returns SQLITE_OK whatever the checkpoint's own result code
was, so the committing writer never fails because a checkpoint did not
succeed; and `on_open` installs the hook exactly when
`wal_checkpoint_use_sqlite_default` is not set. -/
theorem wal_hook_spec :
    (∀ p t frames rc : Int, p ≤ t →
      (frames ≤ p →
        sqlite_wal_hook_callback p t frames rc =
          (CheckpointRequest.noCheckpoint, SQLITE_OK)) ∧
      (p < frames → frames ≤ t →
        sqlite_wal_hook_callback p t frames rc =
          (CheckpointRequest.passive, SQLITE_OK)) ∧
      (t < frames →
        sqlite_wal_hook_callback p t frames rc =
          (CheckpointRequest.truncate, SQLITE_OK)) ∧
      (sqlite_wal_hook_callback p t frames rc).2 = SQLITE_OK) ∧
    (∀ cfg : SFSConfig,
      (storage_on_open cfg).wal_hook_installed =
        !cfg.wal_checkpoint_use_sqlite_default) := by
  refine ⟨fun p t frames rc hpt => ⟨?_, ?_, ?_, ?_⟩, fun cfg => rfl⟩
  · intro h
    simp only [sqlite_wal_hook_callback]
    rw [if_pos h]
  · intro h1 h2
    simp only [sqlite_wal_hook_callback]
    rw [if_neg (by omega)]
    rw [if_neg (by omega)]
  · intro h
    simp only [sqlite_wal_hook_callback]
    rw [if_neg (by omega)]
    rw [if_pos (by omega)]
  · simp only [sqlite_wal_hook_callback]
    split_ifs <;> rfl

/-- Witness for `wal_hook_spec` at the default thresholds (passive 1000,
truncate 4000) and frame counts in each of the three regimes. -/
theorem wal_hook_spec_witness :
    ((1000 : Int) ≤ 4000) ∧
    sqlite_wal_hook_callback 1000 4000 500 1 =
      (CheckpointRequest.noCheckpoint, SQLITE_OK) ∧
    sqlite_wal_hook_callback 1000 4000 2000 1 =
      (CheckpointRequest.passive, SQLITE_OK) ∧
    sqlite_wal_hook_callback 1000 4000 5000 1 =
      (CheckpointRequest.truncate, SQLITE_OK) :=
  ⟨by norm_num,
   (wal_hook_spec.1 1000 4000 500 1 (by norm_num)).1 (by norm_num),
   (wal_hook_spec.1 1000 4000 2000 1 (by norm_num)).2.1 (by norm_num) (by norm_num),
   (wal_hook_spec.1 1000 4000 5000 1 (by norm_num)).2.2.1 (by norm_num)⟩

/-- C9 (amended): every handle's busy timeout is set to 10 s inside the
`on_open` hook and then overridden to 5 s by the `busy_timeout(5000)` call
that follows `open_forever()`, on the main handle and on every per-thread
handle alike; the final value is 5 s, not 10 s. -/
theorem busy_timeout_spec (cfg : SFSConfig) :
    (storage_on_open cfg).busy_timeout_ms = 10000 ∧
    (dbconn_open_main_handle cfg).busy_timeout_ms = 5000 ∧
    (dbconn_open_thread_handle cfg).busy_timeout_ms = 5000 :=
  ⟨rfl, rfl, rfl⟩

/-- Counterexample to C9 as stated: with the default configuration the main
handle and a per-thread handle end up with a 5000 ms busy timeout, not
10 s. -/
theorem busy_timeout_counterexample :
    (dbconn_open_main_handle ⟨false, false⟩).busy_timeout_ms = 5000 ∧
    (dbconn_open_main_handle ⟨false, false⟩).busy_timeout_ms ≠ 10000 ∧
    (dbconn_open_thread_handle ⟨false, false⟩).busy_timeout_ms ≠ 10000 := by
  decide

/-! Schema-version migration. -/

/-- C5: at open, user_version 0 is stamped to SFS_METADATA_VERSION and
nothing else happens; a version in [SFS_METADATA_MIN_VERSION,
SFS_METADATA_VERSION) runs the upgrade loop (which applies the steps in
order, bumping user_version after each, any failure fatal) — with the
pinned constants SFS_METADATA_MIN_VERSION = SFS_METADATA_VERSION = 4 this
range is empty; a version below SFS_METADATA_MIN_VERSION fails "too far
behind"; a version above SFS_METADATA_VERSION fails "too far ahead"; and
exactly SFS_METADATA_VERSION leaves the database untouched. -/
theorem maybe_upgrade_metadata_spec (stepFails : Nat → Bool) :
    (maybe_upgrade_metadata stepFails 0 =
      Except.ok ⟨SFS_METADATA_VERSION, []⟩) ∧
    (∀ v, SFS_METADATA_MIN_VERSION ≤ v → v < SFS_METADATA_VERSION →
      maybe_upgrade_metadata stepFails v =
        upgrade_metadata stepFails ⟨v, []⟩ ∧
      ((∀ k, v ≤ k → k < SFS_METADATA_VERSION → stepFails k = false) →
        ∃ db, maybe_upgrade_metadata stepFails v = Except.ok db ∧
          db.user_version = SFS_METADATA_VERSION)) ∧
    (∀ v, 0 < v → v < SFS_METADATA_MIN_VERSION →
      maybe_upgrade_metadata stepFails v =
        Except.error "Existing metadata too far behind! Unable to upgrade schema!") ∧
    (∀ v, SFS_METADATA_VERSION < v →
      maybe_upgrade_metadata stepFails v =
        Except.error "Existing metadata too far ahead! Please upgrade!") ∧
    (maybe_upgrade_metadata stepFails SFS_METADATA_VERSION =
      Except.ok ⟨SFS_METADATA_VERSION, []⟩) := by
  refine ⟨rfl, ?_, ?_, ?_, rfl⟩
  · intro v h1 h2
    exfalso
    simp only [SFS_METADATA_MIN_VERSION, SFS_METADATA_VERSION] at h1 h2
    omega
  · intro v h1 h2
    simp only [SFS_METADATA_MIN_VERSION] at h2
    rw [maybe_upgrade_metadata]
    rw [if_neg (by omega)]
    rw [if_neg (by simp only [SFS_METADATA_VERSION, SFS_METADATA_MIN_VERSION]; omega)]
    rw [if_pos (by simp only [SFS_METADATA_MIN_VERSION]; omega)]
  · intro v h1
    simp only [SFS_METADATA_VERSION] at h1
    rw [maybe_upgrade_metadata]
    rw [if_neg (by omega)]
    rw [if_neg (by simp only [SFS_METADATA_VERSION, SFS_METADATA_MIN_VERSION]; omega)]
    rw [if_neg (by simp only [SFS_METADATA_MIN_VERSION]; omega)]
    rw [if_pos (by simp only [SFS_METADATA_VERSION]; omega)]

/-- Witness for `maybe_upgrade_metadata_spec`: version 2 is rejected as too
far behind, version 7 as too far ahead. -/
theorem maybe_upgrade_metadata_spec_witness :
    (0 < 2 ∧ 2 < SFS_METADATA_MIN_VERSION ∧
      maybe_upgrade_metadata (fun _ => false) 2 =
        Except.error "Existing metadata too far behind! Unable to upgrade schema!") ∧
    (SFS_METADATA_VERSION < 7 ∧
      maybe_upgrade_metadata (fun _ => false) 7 =
        Except.error "Existing metadata too far ahead! Please upgrade!") :=
  ⟨⟨by decide, by decide,
    (maybe_upgrade_metadata_spec (fun _ => false)).2.2.1 2 (by decide) (by decide)⟩,
   ⟨by decide,
    (maybe_upgrade_metadata_spec (fun _ => false)).2.2.2.1 7 (by decide)⟩⟩

/-! Retry executor. -/

theorem retry_loop_always_raise (c : Nat)
    (hT : is_transient_error c = true) (hC : is_critical_error c = false) :
    ∀ (remaining attempt : Nat) (lastErr : Option Nat),
      retry_loop (fun _ => (ClosureOutcome.raise c : ClosureOutcome Int))
          attempt lastErr (remaining + 1) =
        RunResult.finished ⟨none, attempt + (remaining + 1), false, some c⟩ := by
  intro remaining
  induction remaining with
  | zero =>
    intro attempt lastErr
    simp [retry_loop, hC, hT]
  | succ r ih =>
    intro attempt lastErr
    have hstep : retry_loop (fun _ => (ClosureOutcome.raise c : ClosureOutcome Int))
        attempt lastErr (r + 1 + 1) =
        (if is_critical_error c then RunResult.terminated c
         else if is_transient_error c then
           retry_loop (fun _ => (ClosureOutcome.raise c : ClosureOutcome Int))
             (attempt + 1) (some c) (r + 1)
         else RunResult.propagated c) := rfl
    rw [hstep]
    simp only [hC, hT, Bool.false_eq_true, if_false, if_true]
    rw [ih (attempt + 1) (some c)]
    have harith : attempt + 1 + (r + 1) = attempt + (r + 1 + 1) := by omega
    rw [harith]

/-- C7: RetrySQLiteBusy — a closure returning normally on the first call
yields its value with zero retries and success; a closure throwing a
transient BUSY-class error once and then returning yields the value with
exactly one retry; a closure that always throws transient exhausts the
bounded retries, produces no value and records the last error code; a
closure throwing a corruption-class critical error terminates the process;
and the BUSY class includes extended codes such as SQLITE_BUSY_SNAPSHOT. -/
theorem retry_sqlite_busy_spec :
    (∀ v : Int, retry_run (fun _ => ClosureOutcome.ok v) =
      RunResult.finished ⟨some v, 0, true, none⟩) ∧
    (∀ (v : Int) (c : Nat), is_transient_error c = true →
      is_critical_error c = false →
      retry_run (fun i => if i = 0 then ClosureOutcome.raise c
                          else ClosureOutcome.ok v) =
        RunResult.finished ⟨some v, 1, true, none⟩) ∧
    (∀ c : Nat, is_transient_error c = true → is_critical_error c = false →
      retry_run (fun _ => (ClosureOutcome.raise c : ClosureOutcome Int)) =
        RunResult.finished ⟨none, RETRY_MAX_RETRIES, false, some c⟩) ∧
    (∀ c : Nat, is_critical_error c = true →
      retry_run (fun _ => (ClosureOutcome.raise c : ClosureOutcome Int)) =
        RunResult.terminated c) ∧
    (is_transient_error SQLITE_BUSY_SNAPSHOT = true ∧
     is_transient_error SQLITE_BUSY = true ∧
     is_critical_error SQLITE_CORRUPT = true ∧
     is_critical_error SQLITE_NOTADB = true) := by
  refine ⟨fun v => rfl, ?_, ?_, ?_, by decide⟩
  · intro v c hT hC
    simp [retry_run, RETRY_MAX_RETRIES, retry_loop, hT, hC]
  · intro c hT hC
    have := retry_loop_always_raise c hT hC 9 0 none
    simpa [retry_run, RETRY_MAX_RETRIES] using this
  · intro c hCrit
    simp [retry_run, RETRY_MAX_RETRIES, retry_loop, hCrit]

/-- Witness for `retry_sqlite_busy_spec`: SQLITE_BUSY_SNAPSHOT then a value
gives one retry; SQLITE_CORRUPT terminates; persistent SQLITE_BUSY exhausts
the retries, produces no value, and records code 5. -/
theorem retry_sqlite_busy_spec_witness :
    (is_transient_error SQLITE_BUSY_SNAPSHOT = true ∧
      is_critical_error SQLITE_BUSY_SNAPSHOT = false ∧
      retry_run (fun i => if i = 0 then ClosureOutcome.raise SQLITE_BUSY_SNAPSHOT
                          else ClosureOutcome.ok (23 : Int)) =
        RunResult.finished ⟨some 23, 1, true, none⟩) ∧
    (is_critical_error SQLITE_CORRUPT = true ∧
      retry_run (fun _ => (ClosureOutcome.raise SQLITE_CORRUPT : ClosureOutcome Int)) =
        RunResult.terminated SQLITE_CORRUPT) ∧
    (retry_run (fun _ => (ClosureOutcome.raise SQLITE_BUSY : ClosureOutcome Int)) =
      RunResult.finished ⟨none, RETRY_MAX_RETRIES, false, some SQLITE_BUSY⟩) :=
  ⟨⟨by decide, by decide,
    retry_sqlite_busy_spec.2.1 23 SQLITE_BUSY_SNAPSHOT (by decide) (by decide)⟩,
   ⟨by decide, retry_sqlite_busy_spec.2.2.2.1 SQLITE_CORRUPT (by decide)⟩,
   retry_sqlite_busy_spec.2.2.1 SQLITE_BUSY (by decide) (by decide)⟩

/-! Enum column decoders. -/

/-- C8 (amended): the ObjectState and VersionType decoders abort the
process with "cannot make enum value from NULL" whenever the stored value
is NULL, but they do not reject out-of-range integers: any non-NULL integer
is cast through unchecked and returned. -/
theorem enum_decoders_spec :
    (∀ i : Int,
      object_state_get_col_from_db (ColumnValue.integer i) = DecodeResult.ok i ∧
      object_state_get_val_from_db (ColumnValue.integer i) = DecodeResult.ok i ∧
      version_type_get_col_from_db (ColumnValue.integer i) = DecodeResult.ok i ∧
      version_type_get_val_from_db (ColumnValue.integer i) = DecodeResult.ok i) ∧
    (object_state_get_col_from_db ColumnValue.null =
      DecodeResult.aborted "cannot make enum value from NULL" ∧
     object_state_get_val_from_db ColumnValue.null =
      DecodeResult.aborted "cannot make enum value from NULL" ∧
     version_type_get_col_from_db ColumnValue.null =
      DecodeResult.aborted "cannot make enum value from NULL" ∧
     version_type_get_val_from_db ColumnValue.null =
      DecodeResult.aborted "cannot make enum value from NULL") :=
  ⟨fun _ => ⟨rfl, rfl, rfl, rfl⟩, rfl, rfl, rfl, rfl⟩

/-- Counterexample to C8 as stated: the integer 7 is outside both declared
enumerator ranges, yet both decoders return it unchanged instead of
aborting. -/
theorem enum_decoder_out_of_range_counterexample :
    objectStateInRange 7 = false ∧
    object_state_get_col_from_db (ColumnValue.integer 7) = DecodeResult.ok 7 ∧
    versionTypeInRange 7 = false ∧
    version_type_get_col_from_db (ColumnValue.integer 7) = DecodeResult.ok 7 := by
  decide

/-! remove_bucket on a missing id. -/

/-- C10: `remove_bucket` with a bucket id matching no row succeeds (the
modelled DELETE is a total function) and leaves the buckets table
unchanged. -/
theorem remove_bucket_missing_noop (s : Store) (bid : String)
    (h : ∀ b ∈ s.buckets, b.bucket_id ≠ bid) : remove_bucket s bid = s := by
  rw [remove_bucket]
  have hb : (s.buckets.filter fun b => !decide (b.bucket_id = bid)) = s.buckets := by
    apply List.filter_eq_self.mpr
    intro b hbmem
    simp [h b hbmem]
  rw [hb]

/-- Witness for `remove_bucket_missing_noop` on the store of
TestSFSSQLiteBuckets.RemoveUserThatDoesNotExist: removing "testX" keeps all
three buckets. -/
theorem remove_bucket_missing_noop_witness :
    (∀ b ∈ removeBucketStore.buckets, b.bucket_id ≠ "testX") ∧
    remove_bucket removeBucketStore "testX" = removeBucketStore :=
  ⟨by decide, remove_bucket_missing_noop removeBucketStore "testX" (by decide)⟩

/-! Work-budget batching. -/

theorem length_le_of_mem_takeBatches {α : Type} (n : Nat) :
    ∀ (fuel : Nat) (xs : List α), ∀ c ∈ takeBatches n fuel xs, c.length ≤ n := by
  intro fuel
  induction fuel with
  | zero =>
    intro xs c hc
    simp [takeBatches] at hc
  | succ f ih =>
    intro xs c hc
    match xs with
    | [] => simp [takeBatches] at hc
    | x :: rest =>
      have hc' : c = (x :: rest).take n ∨ c ∈ takeBatches n f ((x :: rest).drop n) := by
        simpa [takeBatches] using hc
      rcases hc' with h | h
      · subst h
        exact List.length_take_le n (x :: rest)
      · exact ih _ c h

/-- C3 (amended): the TestSFSGC.TestDoneAndAbortedMultiparts scenario with
budget 1 — multiparts INPROGRESS with 10 parts, COMPLETE with 5,
AGGREGATING with 20, DONE with 10, DONE with 5 and ABORTED with 5, for 55
part files (60 payload files with the 5 version files). One scan removes
the DONE and ABORTED multiparts and their 20 part files, leaving 35 part
files (40 payload files) and the INPROGRESS, COMPLETE and AGGREGATING rows.
After `mark_done("multipart3")` a second scan leaves 15 part files (20
payload files) and only the INPROGRESS and COMPLETE rows. A scan drains the
category in successive iterations, each fetching at most
`gc_max_objects_per_iteration` items — three iterations of one multipart
each here — rather than processing at most that many items per scan. -/
theorem gc_done_aborted_multipart_scenario :
    doneAbortedScenarioChecks ∧
    (∀ (n : Nat) (s : Store),
      ((multipartBatches n s).all fun c => decide (c.length ≤ n)) = true) := by
  constructor
  · decide
  · intro n s
    rw [List.all_eq_true]
    intro c hc
    simp only [multipartBatches, chunksOf] at hc
    simpa using length_le_of_mem_takeBatches n _ _ c hc

/-- Counterexample to C3 as stated: building the store from the claim's own
figures (five multiparts INPROGRESS 10, COMPLETE 5, AGGREGATING 20, DONE
10, ABORTED 5; 50 part files), one scan leaves 35 part files, not 20, and
it processes 2 DONE/ABORTED multiparts even though
gc_max_objects_per_iteration is 1. -/
theorem gc_budget_scenario_counterexample :
    partFileCount claimC3Store = 50 ∧
    partFileCount (gc_process claimC3Store) = 35 ∧
    partFileCount (gc_process claimC3Store) ≠ 20 ∧
    claimC3Store.multiparts.length - (gc_process claimC3Store).multiparts.length = 2 ∧
    ¬(claimC3Store.multiparts.length - (gc_process claimC3Store).multiparts.length ≤ 1) := by
  decide

/-! Empty-bucket predicate. -/

/-- C4 (amended): `bucket_empty` is true iff no REGULAR (non-delete-marker)
version whose chain reaches the bucket has object_state COMMITTED, and the
TestSFSSQLiteBuckets.TestBucketEmpty scenario: a fresh bucket is empty, it
stays empty while its only version is OPEN, becomes non-empty when that
version is COMMITTED, stays non-empty after a delete marker is appended,
and becomes empty again once the COMMITTED version transitions to DELETED
(the marker row itself carries state COMMITTED but, being a delete marker,
does not count). -/
theorem bucket_empty_spec :
    (∀ (s : Store) (bid : String),
      bucket_empty s bid = true ↔
        ¬∃ v ∈ s.versions, v.object_state = ObjectState.COMMITTED ∧
          v.version_type = VersionType.REGULAR ∧
          ∃ o ∈ s.objects, o.uuid = v.object_id ∧ o.bucket_id = bid) ∧
    bucket_empty bucketEmptyS0 "bucket1_id" = true ∧
    bucket_empty bucketEmptyS1 "bucket1_id" = true ∧
    bucket_empty bucketEmptyS2 "bucket1_id" = false ∧
    bucketEmptyS3.2 = true ∧
    bucket_empty bucketEmptyS3.1 "bucket1_id" = false ∧
    bucket_empty bucketEmptyS4 "bucket1_id" = true := by
  refine ⟨?_, by decide⟩
  intro s bid
  rw [bucket_empty, Bool.not_eq_true', List.any_eq_false]
  constructor
  · rintro h ⟨v, hv, h1, h2, o, ho, h3, h4⟩
    have hh := h v hv
    simp only [Bool.and_eq_true, decide_eq_true_eq, List.any_eq_true, not_and] at hh
    exact hh ⟨h1, h2⟩ ⟨o, ho, h3, h4⟩
  · intro h v hv
    simp only [Bool.and_eq_true, decide_eq_true_eq, List.any_eq_true, not_and]
    rintro ⟨h1, h2⟩ ⟨o, ho, h3, h4⟩
    exact h ⟨v, hv, h1, h2, o, ho, h3, h4⟩

/-- Counterexample to C4 as stated: in the final state of the
TestBucketEmpty scenario the bucket is empty (the code's predicate is true)
although a version with object_state COMMITTED — the delete marker — still
chains to the bucket, so "true iff no version whose chain reaches the
bucket has object_state COMMITTED" fails in the only-if direction. -/
theorem bucket_empty_committed_marker_counterexample :
    bucket_empty bucketEmptyS4 "bucket1_id" = true ∧
    bucket_empty_claimed bucketEmptyS4 "bucket1_id" = false ∧
    (∃ v ∈ bucketEmptyS4.versions, v.object_state = ObjectState.COMMITTED ∧
      ∃ o ∈ bucketEmptyS4.objects, o.uuid = v.object_id ∧
        o.bucket_id = "bucket1_id") := by
  decide

/-! Deleted-bucket reclamation. -/

theorem mem_step1_versions_of_gc {s : Store} {v : DBVersionedObject}
    (h : v ∈ (gc_process s).versions) :
    v ∈ (processDeletedBuckets s).versions := by
  have h1 : v ∈ (processDeletedVersions (processDeletedBuckets s)).versions := h
  rw [pdv_versions] at h1
  exact (List.mem_filter.mp h1).1

theorem mem_step1_multiparts_of_gc {s : Store} {m : DBMultipart}
    (h : m ∈ (gc_process s).multiparts) :
    m ∈ (processDeletedBuckets s).multiparts := by
  have h0 : m ∈ (processDoneAndAbortedMultiparts
      (processDeletedVersions (processDeletedBuckets s))).multiparts := h
  rw [pdam_multiparts] at h0
  exact (List.mem_filter.mp h0).1

theorem mem_step1_parts_of_gc {s : Store} {p : DBMultipartPart}
    (h : p ∈ (gc_process s).parts) :
    p ∈ (processDeletedBuckets s).parts := by
  have h0 : p ∈ (processDoneAndAbortedMultiparts
      (processDeletedVersions (processDeletedBuckets s))).parts := h
  rw [pdam_parts] at h0
  exact (List.mem_filter.mp h0).1

theorem mem_step1_files_of_gc {s : Store} {f : FileId}
    (h : f ∈ (gc_process s).files) :
    f ∈ (processDeletedBuckets s).files := by
  have h0 : f ∈ (processDoneAndAbortedMultiparts
      (processDeletedVersions (processDeletedBuckets s))).files := h
  rw [pdam_files] at h0
  have h1 : f ∈ (processDeletedVersions (processDeletedBuckets s)).files :=
    (List.mem_filter.mp h0).1
  rw [pdv_files] at h1
  exact (List.mem_filter.mp h1).1

/-- C1: on a store satisfying the schema's uniqueness constraints, one GC
scan removes every bucket marked `deleted`, every object row under it,
every version row under those objects together with their payload files,
and every multipart under it with its part rows and part files; a bucket
row disappears only when no objects and no multiparts remain under it; and
the deleted-buckets category leaves buckets not marked deleted and their
contents untouched (live bucket rows also survive the whole scan). -/
theorem gc_removes_deleted_buckets (s : Store) (hWF : WF s) :
    DeletedBucketsReclaimed s := by
  obtain ⟨hbN, hoN, _, hmN, _⟩ := hWF
  have hgcb : (gc_process s).buckets = (processDeletedBuckets s).buckets := rfl
  have hgco : (gc_process s).objects = (processDeletedBuckets s).objects := rfl
  refine ⟨?_, ?_, ?_⟩
  · -- every deleted bucket is fully reclaimed
    intro b hb hdel
    have hbd : bucketIsDeleted s b.bucket_id = true := bucketIsDeleted_of_mem hb hdel
    refine ⟨?_, ?_, ?_, ?_, ?_, ?_, ?_⟩
    · intro b' hb' heq
      rw [hgcb, pdb_buckets] at hb'
      rcases List.mem_filter.mp hb' with ⟨hbmem, hpred⟩
      have hbb : b' = b := List.inj_on_of_nodup_map hbN hbmem hb heq
      subst hbb
      rw [hdel, bucketDrained_after_filter hbd] at hpred
      simp at hpred
    · intro o ho heq
      rw [hgco, pdb_objects] at ho
      rcases List.mem_filter.mp ho with ⟨_, hpred⟩
      rw [heq, hbd] at hpred
      simp at hpred
    · intro v hv o ho hob heq
      have hv1 := mem_step1_versions_of_gc hv
      rw [pdb_versions] at hv1
      rcases List.mem_filter.mp hv1 with ⟨_, hpred⟩
      rw [Bool.not_eq_true', versionHasObjectIn] at hpred
      have ho' : o ∈ s.objects.filter fun o => bucketIsDeleted s o.bucket_id :=
        List.mem_filter.mpr ⟨ho, by rw [hob]; exact hbd⟩
      have hno := List.any_eq_false.mp hpred o ho'
      apply hno
      simp [heq]
    · intro m hm heq
      have hm1 := mem_step1_multiparts_of_gc hm
      rw [pdb_multiparts] at hm1
      rcases List.mem_filter.mp hm1 with ⟨_, hpred⟩
      rw [heq, hbd] at hpred
      simp at hpred
    · intro p hp m hm hmb heq
      have hp1 := mem_step1_parts_of_gc hp
      rw [pdb_parts] at hp1
      rcases List.mem_filter.mp hp1 with ⟨_, hpred⟩
      rw [Bool.not_eq_true', partHasMultipartIn] at hpred
      have hm' : m ∈ s.multiparts.filter fun m => bucketIsDeleted s m.bucket_id :=
        List.mem_filter.mpr ⟨hm, by rw [hmb]; exact hbd⟩
      have hno := List.any_eq_false.mp hpred m hm'
      apply hno
      simp [heq]
    · intro vid hf v hv hvid o ho houuid hob
      have hf1 := mem_step1_files_of_gc hf
      rw [pdb_files] at hf1
      rcases List.mem_filter.mp hf1 with ⟨_, hpred⟩
      have hpred' : (!((s.versions.filter (versionHasObjectIn
          (s.objects.filter fun o => bucketIsDeleted s o.bucket_id))).any
          fun v => decide (v.id = vid))) = true := hpred
      rw [Bool.not_eq_true'] at hpred'
      have hvmem : v ∈ s.versions.filter (versionHasObjectIn
          (s.objects.filter fun o => bucketIsDeleted s o.bucket_id)) := by
        refine List.mem_filter.mpr ⟨hv, ?_⟩
        rw [versionHasObjectIn, List.any_eq_true]
        exact ⟨o, List.mem_filter.mpr ⟨ho, by rw [hob]; exact hbd⟩, by simp [houuid]⟩
      have hno := List.any_eq_false.mp hpred' v hvmem
      apply hno
      simp [hvid]
    · intro pid hf p hp hpid m hm hup hmb
      have hf1 := mem_step1_files_of_gc hf
      rw [pdb_files] at hf1
      rcases List.mem_filter.mp hf1 with ⟨_, hpred⟩
      have hpred' : (!((s.parts.filter (partHasMultipartIn
          (s.multiparts.filter fun m => bucketIsDeleted s m.bucket_id))).any
          fun p => decide (p.id = pid))) = true := hpred
      rw [Bool.not_eq_true'] at hpred'
      have hpmem : p ∈ s.parts.filter (partHasMultipartIn
          (s.multiparts.filter fun m => bucketIsDeleted s m.bucket_id)) := by
        refine List.mem_filter.mpr ⟨hp, ?_⟩
        rw [partHasMultipartIn, List.any_eq_true]
        exact ⟨m, List.mem_filter.mpr ⟨hm, by rw [hmb]; exact hbd⟩, by simp [hup]⟩
      have hno := List.any_eq_false.mp hpred' p hpmem
      apply hno
      simp [hpid]
  · -- a bucket row is removed only once it is drained
    intro b hb hnot
    rw [hgcb, pdb_buckets] at hnot
    cases hdd : (b.deleted && bucketDrained
        (s.objects.filter fun o => !bucketIsDeleted s o.bucket_id)
        (s.multiparts.filter fun m => !bucketIsDeleted s m.bucket_id)
        b.bucket_id) with
    | false =>
      exact absurd (List.mem_filter.mpr ⟨hb, by rw [hdd]; rfl⟩) hnot
    | true =>
    have hdd' : b.deleted = true ∧ bucketDrained
        (s.objects.filter fun o => !bucketIsDeleted s o.bucket_id)
        (s.multiparts.filter fun m => !bucketIsDeleted s m.bucket_id)
        b.bucket_id = true := by simpa using hdd
    have hdr := hdd'.2
    rw [bucketDrained] at hdr
    have hdr' : ((s.objects.filter fun o => !bucketIsDeleted s o.bucket_id).any
          fun o => decide (o.bucket_id = b.bucket_id)) = false ∧
        ((s.multiparts.filter fun m => !bucketIsDeleted s m.bucket_id).any
          fun m => decide (m.bucket_id = b.bucket_id)) = false := by
      simpa using hdr
    have hno := hdr'.1
    have hnm := hdr'.2
    constructor
    · intro o ho heq
      have ho1 : o ∈ s.objects.filter fun o => !bucketIsDeleted s o.bucket_id := by
        rw [← pdb_objects, ← hgco]
        exact ho
      have hc := List.any_eq_false.mp hno o ho1
      apply hc
      simp [heq]
    · intro m hm heq
      have hm1 : m ∈ s.multiparts.filter fun m => !bucketIsDeleted s m.bucket_id := by
        rw [← pdb_multiparts]
        exact mem_step1_multiparts_of_gc hm
      have hc := List.any_eq_false.mp hnm m hm1
      apply hc
      simp [heq]
  · -- live buckets and their contents are untouched by the deleted-buckets
    -- category, and live bucket rows survive the whole scan
    intro b hb hlive
    have hbdf : bucketIsDeleted s b.bucket_id = false :=
      bucketIsDeleted_eq_false hbN hb hlive
    constructor
    · refine ⟨?_, ?_, ?_, ?_, ?_, ?_, ?_⟩
      · intro b' hb' heq
        rw [pdb_buckets]
        refine List.mem_filter.mpr ⟨hb', ?_⟩
        have hbb : b' = b := List.inj_on_of_nodup_map hbN hb' hb heq
        subst hbb
        rw [hlive]
        rfl
      · intro o ho heq
        rw [pdb_objects]
        refine List.mem_filter.mpr ⟨ho, ?_⟩
        rw [heq, hbdf]
        rfl
      · intro v hv o ho hob huuid
        rw [pdb_versions]
        refine List.mem_filter.mpr ⟨hv, ?_⟩
        rw [Bool.not_eq_true', versionHasObjectIn]
        apply List.any_eq_false.mpr
        intro o' ho'
        rcases List.mem_filter.mp ho' with ⟨ho'mem, ho'del⟩
        simp only [decide_eq_true_eq]
        intro heq2
        have hoo : o' = o :=
          List.inj_on_of_nodup_map hoN ho'mem ho (by rw [heq2, ← huuid])
        subst hoo
        rw [hob, hbdf] at ho'del
        simp at ho'del
      · intro m hm heq
        rw [pdb_multiparts]
        refine List.mem_filter.mpr ⟨hm, ?_⟩
        rw [heq, hbdf]
        rfl
      · intro p hp m hm hmb hup
        rw [pdb_parts]
        refine List.mem_filter.mpr ⟨hp, ?_⟩
        rw [Bool.not_eq_true', partHasMultipartIn]
        apply List.any_eq_false.mpr
        intro m' hm'
        rcases List.mem_filter.mp hm' with ⟨hm'mem, hm'del⟩
        simp only [decide_eq_true_eq]
        intro heq2
        have hmm : m' = m :=
          List.inj_on_of_nodup_map hmN hm'mem hm (by rw [heq2, ← hup])
        subst hmm
        rw [hmb, hbdf] at hm'del
        simp at hm'del
      · intro vid hfmem hall
        rw [pdb_files]
        refine List.mem_filter.mpr ⟨hfmem, ?_⟩
        show (!((s.versions.filter (versionHasObjectIn
            (s.objects.filter fun o => bucketIsDeleted s o.bucket_id))).any
            fun v => decide (v.id = vid))) = true
        rw [Bool.not_eq_true']
        apply List.any_eq_false.mpr
        intro v' hv'
        rcases List.mem_filter.mp hv' with ⟨hv'mem, hv'has⟩
        simp only [decide_eq_true_eq]
        intro heqid
        rcases hall v' hv'mem heqid with ⟨o, homem, houuid, hob⟩
        rw [versionHasObjectIn, List.any_eq_true] at hv'has
        rcases hv'has with ⟨o', ho', ho'eq⟩
        rcases List.mem_filter.mp ho' with ⟨ho'mem, ho'del⟩
        simp only [decide_eq_true_eq] at ho'eq
        have hoo : o' = o :=
          List.inj_on_of_nodup_map hoN ho'mem homem (by rw [ho'eq, ← houuid])
        subst hoo
        rw [hob, hbdf] at ho'del
        simp at ho'del
      · intro pid hfmem hall
        rw [pdb_files]
        refine List.mem_filter.mpr ⟨hfmem, ?_⟩
        show (!((s.parts.filter (partHasMultipartIn
            (s.multiparts.filter fun m => bucketIsDeleted s m.bucket_id))).any
            fun p => decide (p.id = pid))) = true
        rw [Bool.not_eq_true']
        apply List.any_eq_false.mpr
        intro p' hp'
        rcases List.mem_filter.mp hp' with ⟨hp'mem, hp'has⟩
        simp only [decide_eq_true_eq]
        intro heqid
        rcases hall p' hp'mem heqid with ⟨m, hmmem, hup, hmb⟩
        rw [partHasMultipartIn, List.any_eq_true] at hp'has
        rcases hp'has with ⟨m', hm', hm'eq⟩
        rcases List.mem_filter.mp hm' with ⟨hm'mem, hm'del⟩
        simp only [decide_eq_true_eq] at hm'eq
        have hmm : m' = m :=
          List.inj_on_of_nodup_map hmN hm'mem hmmem (by rw [hm'eq, ← hup])
        subst hmm
        rw [hmb, hbdf] at hm'del
        simp at hm'del
    · rw [hgcb, pdb_buckets]
      refine List.mem_filter.mpr ⟨hb, ?_⟩
      rw [hlive]
      rfl

/-- Witness for `gc_removes_deleted_buckets` on a store with a live bucket
(COMMITTED version, COMPLETE multipart) and a deleted bucket (OPEN version,
delete marker, INPROGRESS multipart with a part). -/
theorem gc_removes_deleted_buckets_witness :
    WF deletedBucketStore ∧ DeletedBucketsReclaimed deletedBucketStore :=
  ⟨by decide, gc_removes_deleted_buckets deletedBucketStore (by decide)⟩

/-! Deleted-version reclamation: helper lemmas. -/

theorem bucketIsDeleted_false_of_all_live {s : Store} (hlive : AllBucketsLive s)
    (bid : String) : bucketIsDeleted s bid = false := by
  rw [bucketIsDeleted]
  apply List.any_eq_false.mpr
  intro b hb
  simp [hlive b hb]

theorem processDeletedBuckets_eq_self {s : Store} (hlive : AllBucketsLive s) :
    processDeletedBuckets s = s := by
  have hbd := bucketIsDeleted_false_of_all_live hlive
  have hobjs : (s.objects.filter fun o => bucketIsDeleted s o.bucket_id) = [] := by
    apply List.filter_eq_nil_iff.mpr
    intro o _
    simp [hbd]
  have hmps : (s.multiparts.filter fun m => bucketIsDeleted s m.bucket_id) = [] := by
    apply List.filter_eq_nil_iff.mpr
    intro m _
    simp [hbd]
  have hvers : (s.versions.filter (versionHasObjectIn
      (s.objects.filter fun o => bucketIsDeleted s o.bucket_id))) = [] := by
    apply List.filter_eq_nil_iff.mpr
    intro v _
    rw [versionHasObjectIn, hobjs]
    simp
  have hparts : (s.parts.filter (partHasMultipartIn
      (s.multiparts.filter fun m => bucketIsDeleted s m.bucket_id))) = [] := by
    apply List.filter_eq_nil_iff.mpr
    intro p _
    rw [partHasMultipartIn, hmps]
    simp
  refine Store.ext ?_ ?_ ?_ ?_ ?_ ?_
  · rw [pdb_buckets]
    apply List.filter_eq_self.mpr
    intro b hb
    simp [hlive b hb]
  · rw [pdb_objects]
    apply List.filter_eq_self.mpr
    intro o _
    simp [hbd]
  · rw [pdb_versions]
    apply List.filter_eq_self.mpr
    intro v _
    rw [versionHasObjectIn, hobjs]
    simp
  · rw [pdb_multiparts]
    apply List.filter_eq_self.mpr
    intro m _
    simp [hbd]
  · rw [pdb_parts]
    apply List.filter_eq_self.mpr
    intro p _
    rw [partHasMultipartIn, hmps]
    simp
  · rw [pdb_files]
    apply List.filter_eq_self.mpr
    intro f _
    cases f with
    | versionFile vid =>
      show (!((s.versions.filter (versionHasObjectIn
          (s.objects.filter fun o => bucketIsDeleted s o.bucket_id))).any
          fun v => decide (v.id = vid))) = true
      rw [hvers]
      rfl
    | partFile pid =>
      show (!((s.parts.filter (partHasMultipartIn
          (s.multiparts.filter fun m => bucketIsDeleted s m.bucket_id))).any
          fun p => decide (p.id = pid))) = true
      rw [hparts]
      rfl

theorem processDeletedVersions_eq_self {s : Store}
    (h : ∀ v ∈ s.versions, versionReclaimable s v = false) :
    processDeletedVersions s = s := by
  have hvs : s.versions.filter (versionReclaimable s) = [] := by
    apply List.filter_eq_nil_iff.mpr
    intro v hv
    simp [h v hv]
  refine Store.ext rfl rfl ?_ rfl rfl ?_
  · rw [pdv_versions]
    apply List.filter_eq_self.mpr
    intro v hv
    simp [h v hv]
  · rw [pdv_files]
    apply List.filter_eq_self.mpr
    intro f _
    cases f with
    | versionFile vid =>
      show (!((s.versions.filter (versionReclaimable s)).any
          fun v => decide (v.id = vid))) = true
      rw [hvs]
      rfl
    | partFile pid => rfl

theorem processDoneAbortedMultiparts_eq_self {s : Store}
    (h : ∀ m ∈ s.multiparts, multipartReclaimable s m = false) :
    processDoneAndAbortedMultiparts s = s := by
  have hms : s.multiparts.filter (multipartReclaimable s) = [] := by
    apply List.filter_eq_nil_iff.mpr
    intro m hm
    simp [h m hm]
  have hparts : (s.parts.filter (partHasMultipartIn
      (s.multiparts.filter (multipartReclaimable s)))) = [] := by
    apply List.filter_eq_nil_iff.mpr
    intro p _
    rw [partHasMultipartIn, hms]
    simp
  refine Store.ext rfl rfl rfl ?_ ?_ ?_
  · rw [pdam_multiparts]
    apply List.filter_eq_self.mpr
    intro m hm
    simp [h m hm]
  · rw [pdam_parts]
    apply List.filter_eq_self.mpr
    intro p _
    show (!(partHasMultipartIn (s.multiparts.filter (multipartReclaimable s)) p)) = true
    rw [partHasMultipartIn, hms]
    rfl
  · rw [pdam_files]
    apply List.filter_eq_self.mpr
    intro f _
    cases f with
    | versionFile vid => rfl
    | partFile pid =>
      show (!((s.parts.filter (partHasMultipartIn
          (s.multiparts.filter (multipartReclaimable s)))).any
          fun p => decide (p.id = pid))) = true
      rw [hparts]
      rfl

theorem gc_process_eq_self {s : Store} (hlive : AllBucketsLive s)
    (hver : ∀ v ∈ s.versions, versionReclaimable s v = false)
    (hmp : ∀ m ∈ s.multiparts, multipartReclaimable s m = false) :
    gc_process s = s := by
  rw [gc_process, processDeletedBuckets_eq_self hlive,
      processDeletedVersions_eq_self hver,
      processDoneAbortedMultiparts_eq_self hmp]

theorem versionInLiveBucket_true {s : Store} (hlive : AllBucketsLive s)
    (hchain : ChainsComplete s) {v : DBVersionedObject} (hv : v ∈ s.versions) :
    versionInLiveBucket s v = true := by
  obtain ⟨o, ho, houuid⟩ := hchain.1 v hv
  rw [versionInLiveBucket, versionBucket]
  cases hfind : s.objects.find? fun o => decide (o.uuid = v.object_id) with
  | none =>
    exfalso
    have hnone := List.find?_eq_none.mp hfind o ho
    simp [houuid] at hnone
  | some o' =>
    have ho'mem : o' ∈ s.objects := List.mem_of_find?_eq_some hfind
    obtain ⟨b, hb, hbid⟩ := hchain.2 o' ho'mem
    show bucketIsLive s o'.bucket_id = true
    rw [bucketIsLive, List.any_eq_true]
    exact ⟨b, hb, by simp [hbid, hlive b hb]⟩

theorem versionReclaimable_eq_state {s : Store} (hlive : AllBucketsLive s)
    (hchain : ChainsComplete s) (hmk : MarkersNotDeleted s)
    {v : DBVersionedObject} (hv : v ∈ s.versions) :
    versionReclaimable s v = decide (v.object_state = ObjectState.DELETED) := by
  rw [versionReclaimable, versionInLiveBucket_true hlive hchain hv]
  cases htype : v.version_type with
  | REGULAR => simp
  | DELETE_MARKER =>
    have hnd := hmk v hv htype
    simp [hnd]

theorem filter_map_eq_filter {α : Type} (g : α → α) (p q : α → Bool) :
    ∀ l : List α, (∀ a ∈ l, p (g a) = q a) → (∀ a ∈ l, q a = true → g a = a) →
    (l.map g).filter p = l.filter q := by
  intro l
  induction l with
  | nil => intro _ _; rfl
  | cons x t ih =>
    intro h1 h2
    have hx : p (g x) = q x := h1 x (List.mem_cons_self x t)
    have iht := ih (fun a ha => h1 a (List.mem_cons_of_mem x ha))
      (fun a ha => h2 a (List.mem_cons_of_mem x ha))
    rw [List.map_cons]
    cases hq : q x with
    | true =>
      have hpgx : p (g x) = true := by rw [hx]; exact hq
      rw [List.filter_cons_of_pos hpgx, List.filter_cons_of_pos hq,
        h2 x (List.mem_cons_self x t) hq, iht]
    | false =>
      have hpgx : ¬p (g x) = true := by rw [hx, hq]; simp
      have hqx : ¬q x = true := by rw [hq]; simp
      rw [List.filter_cons_of_neg hpgx, List.filter_cons_of_neg hqx, iht]

theorem mem_versionFile_step3 {s : Store} {vid : Nat} :
    FileId.versionFile vid ∈ (processDoneAndAbortedMultiparts s).files ↔
    FileId.versionFile vid ∈ s.files := by
  rw [pdam_files]
  constructor
  · intro h
    exact (List.mem_filter.mp h).1
  · intro h
    exact List.mem_filter.mpr ⟨h, rfl⟩

theorem mem_versionFile_step2 {s : Store} {vid : Nat} :
    FileId.versionFile vid ∈ (processDeletedVersions s).files ↔
    (FileId.versionFile vid ∈ s.files ∧
      ((s.versions.filter (versionReclaimable s)).any
        fun v => decide (v.id = vid)) = false) := by
  rw [pdv_files]
  constructor
  · intro h
    rcases List.mem_filter.mp h with ⟨h1, h2⟩
    have h2' : (!((s.versions.filter (versionReclaimable s)).any
        fun v => decide (v.id = vid))) = true := h2
    rw [Bool.not_eq_true'] at h2'
    exact ⟨h1, h2'⟩
  · rintro ⟨h1, h2⟩
    refine List.mem_filter.mpr ⟨h1, ?_⟩
    show (!((s.versions.filter (versionReclaimable s)).any
        fun v => decide (v.id = vid))) = true
    rw [Bool.not_eq_true']
    exact h2

theorem gc_process_eq_self_of_quiet {t : Store} (hlive : AllBucketsLive t)
    (hver : ∀ v ∈ t.versions, v.object_state ≠ ObjectState.DELETED)
    (hmp : ∀ m ∈ t.multiparts,
      m.state ≠ MultipartState.DONE ∧ m.state ≠ MultipartState.ABORTED) :
    gc_process t = t := by
  apply gc_process_eq_self hlive
  · intro v hv
    rw [versionReclaimable]
    simp [hver v hv]
  · intro m hm
    rw [multipartReclaimable]
    have hh := hmp m hm
    simp [hh.1, hh.2]

/-- C2: over a store of live buckets whose version chains are complete and
whose delete markers are not in state DELETED, one GC scan deletes the
payload file (a no-op when the file is missing, since only present files
are touched) and the row of exactly those versions whose object_state is
DELETED; OPEN and COMMITTED versions and delete markers are never
reclaimed; starting from a store with no DELETED versions and no
DONE/ABORTED multiparts, adding a delete marker alone causes no file
removal, and setting exactly a set of REGULAR versions to DELETED removes
exactly those version rows and exactly their payload files. -/
theorem gc_removes_deleted_versions (s : Store) (hWF : WF s)
    (hlive : AllBucketsLive s) (hchain : ChainsComplete s)
    (hmk : MarkersNotDeleted s) :
    DeletedVersionsReclaimed s ∧
    (NoDeletedVersions s → NoReclaimableMultiparts s →
      (∀ (oid mid : String) (vid : Nat),
        (gc_process (add_delete_marker_transact s oid mid vid).1).files = s.files) ∧
      (∀ S : List Nat,
        (∀ i ∈ S, ∃ v ∈ s.versions, v.id = i) →
        (∀ v ∈ s.versions, v.id ∈ S → v.version_type = VersionType.REGULAR) →
        (gc_process (markDeleted s S)).versions =
          (s.versions.filter fun v => !decide (v.id ∈ S)) ∧
        (gc_process (markDeleted s S)).files =
          (s.files.filter fun f =>
            match f with
            | FileId.versionFile vid => !decide (vid ∈ S)
            | FileId.partFile _ => true))) := by
  have _hWF := hWF
  have hstep1 : processDeletedBuckets s = s := processDeletedBuckets_eq_self hlive
  have hveq : (gc_process s).versions =
      (s.versions.filter fun v => !decide (v.object_state = ObjectState.DELETED)) := by
    have h0 : (gc_process s).versions =
        (processDeletedVersions (processDeletedBuckets s)).versions := rfl
    rw [h0, hstep1, pdv_versions]
    apply List.filter_congr
    intro v hv
    rw [versionReclaimable_eq_state hlive hchain hmk hv]
  constructor
  · refine ⟨hveq, ?_, ?_⟩
    · intro vid
      have e1 : (gc_process s).files =
          (processDoneAndAbortedMultiparts (processDeletedVersions s)).files := by
        show (processDoneAndAbortedMultiparts (processDeletedVersions
          (processDeletedBuckets s))).files = _
        rw [hstep1]
      rw [e1, mem_versionFile_step3, mem_versionFile_step2]
      constructor
      · rintro ⟨h1, h2⟩
        refine ⟨h1, ?_⟩
        intro v hv hid hstate
        have hrc : versionReclaimable s v = true := by
          rw [versionReclaimable_eq_state hlive hchain hmk hv]
          simp [hstate]
        have hfalse := List.any_eq_false.mp h2 v (List.mem_filter.mpr ⟨hv, hrc⟩)
        simp [hid] at hfalse
      · rintro ⟨h1, h2⟩
        refine ⟨h1, ?_⟩
        apply List.any_eq_false.mpr
        intro v hvf
        rcases List.mem_filter.mp hvf with ⟨hv, hrc⟩
        simp only [decide_eq_true_eq]
        intro hid
        have hst := h2 v hv hid
        rw [versionReclaimable_eq_state hlive hchain hmk hv] at hrc
        simp [hst] at hrc
    · intro v hv hcase
      have hne : v.object_state ≠ ObjectState.DELETED := by
        rcases hcase with h | h | h
        · rw [h]; decide
        · rw [h]; decide
        · exact hmk v hv h
      rw [hveq]
      exact List.mem_filter.mpr ⟨hv, by simp [hne]⟩
  · intro hnodel hnomp
    constructor
    · intro oid mid vid
      cases hg : get_last_versioned_object s oid with
      | none =>
        have ht : (add_delete_marker_transact s oid mid vid).1 = s := by
          simp [add_delete_marker_transact, hg]
        rw [ht, gc_process_eq_self_of_quiet hlive hnodel hnomp]
      | some last =>
        by_cases hlast : last.version_type = VersionType.DELETE_MARKER
        · have ht : (add_delete_marker_transact s oid mid vid).1 = s := by
            simp [add_delete_marker_transact, hg, hlast]
          rw [ht, gc_process_eq_self_of_quiet hlive hnodel hnomp]
        · have ht : (add_delete_marker_transact s oid mid vid).1 =
              { s with versions := s.versions ++
                [⟨vid, oid, ObjectState.COMMITTED, mid, VersionType.DELETE_MARKER⟩] } := by
            simp [add_delete_marker_transact, hg, hlast]
          have hv' : ∀ v ∈ ({ s with versions := s.versions ++
              [⟨vid, oid, ObjectState.COMMITTED, mid, VersionType.DELETE_MARKER⟩] } :
                Store).versions,
              v.object_state ≠ ObjectState.DELETED := by
            intro v hv
            rcases List.mem_append.mp hv with h | h
            · exact hnodel v h
            · have hvl : v =
                  ⟨vid, oid, ObjectState.COMMITTED, mid, VersionType.DELETE_MARKER⟩ := by
                simpa using h
              rw [hvl]
              simp
          have hlive2 : AllBucketsLive { s with versions := s.versions ++
              [⟨vid, oid, ObjectState.COMMITTED, mid, VersionType.DELETE_MARKER⟩] } :=
            hlive
          have hnomp2 : ∀ m ∈ ({ s with versions := s.versions ++
              [⟨vid, oid, ObjectState.COMMITTED, mid, VersionType.DELETE_MARKER⟩] } :
                Store).multiparts,
              m.state ≠ MultipartState.DONE ∧ m.state ≠ MultipartState.ABORTED :=
            hnomp
          rw [ht, gc_process_eq_self_of_quiet hlive2 hv' hnomp2]
    · intro S hSrows hSreg
      have hlive' : AllBucketsLive (markDeleted s S) := hlive
      have hchain' : ChainsComplete (markDeleted s S) := by
        constructor
        · intro v' hv'
          rcases List.mem_map.mp (show v' ∈ s.versions.map
              (fun v => if v.id ∈ S then { v with object_state := ObjectState.DELETED }
                        else v) from hv') with ⟨w, hw, hgw⟩
          obtain ⟨o, ho, houuid⟩ := hchain.1 w hw
          refine ⟨o, ho, ?_⟩
          rw [← hgw]
          show o.uuid = (if w.id ∈ S then { w with object_state := ObjectState.DELETED }
                         else w).object_id
          split
          · exact houuid
          · exact houuid
        · exact hchain.2
      have hrec : ∀ v ∈ s.versions, versionReclaimable (markDeleted s S)
          (if v.id ∈ S then { v with object_state := ObjectState.DELETED } else v) =
          decide (v.id ∈ S) := by
        intro v hv
        by_cases hin : v.id ∈ S
        · rw [if_pos hin, versionReclaimable]
          have htype := hSreg v hv hin
          have hmem' : ({ v with object_state := ObjectState.DELETED } :
              DBVersionedObject) ∈ (markDeleted s S).versions := by
            show _ ∈ s.versions.map
              (fun v => if v.id ∈ S then { v with object_state := ObjectState.DELETED }
                        else v)
            exact List.mem_map.mpr ⟨v, hv, by rw [if_pos hin]⟩
          rw [versionInLiveBucket_true hlive' hchain' hmem']
          simp [htype, hin]
        · rw [if_neg hin, versionReclaimable]
          simp [hnodel v hv, hin]
      have hveq2 : (gc_process (markDeleted s S)).versions =
          (s.versions.filter fun v => !decide (v.id ∈ S)) := by
        have h0 : (gc_process (markDeleted s S)).versions =
            (processDeletedVersions (processDeletedBuckets (markDeleted s S))).versions :=
          rfl
        rw [h0, processDeletedBuckets_eq_self hlive', pdv_versions]
        show ((s.versions.map fun v =>
            if v.id ∈ S then { v with object_state := ObjectState.DELETED } else v).filter
            fun v => !versionReclaimable (markDeleted s S) v) = _
        apply filter_map_eq_filter
        · intro v hv
          show (!versionReclaimable (markDeleted s S)
              (if v.id ∈ S then { v with object_state := ObjectState.DELETED } else v)) =
            !decide (v.id ∈ S)
          rw [hrec v hv]
        · intro v _ hq
          have hnin : ¬v.id ∈ S := by simpa using hq
          exact if_neg hnin
      have hquiet3 : ∀ m ∈ (processDeletedVersions (markDeleted s S)).multiparts,
          multipartReclaimable (processDeletedVersions (markDeleted s S)) m = false := by
        intro m hm
        rw [multipartReclaimable]
        have hh := hnomp m hm
        simp [hh.1, hh.2]
      have hgcf : (gc_process (markDeleted s S)).files =
          (processDeletedVersions (markDeleted s S)).files := by
        have h0 : (gc_process (markDeleted s S)).files =
            (processDoneAndAbortedMultiparts (processDeletedVersions
              (processDeletedBuckets (markDeleted s S)))).files := rfl
        rw [h0, processDeletedBuckets_eq_self hlive',
          processDoneAbortedMultiparts_eq_self hquiet3]
      refine ⟨hveq2, ?_⟩
      rw [hgcf, pdv_files]
      have hfeq : (markDeleted s S).files = s.files := rfl
      rw [hfeq]
      apply List.filter_congr
      intro f _
      cases f with
      | partFile pid => rfl
      | versionFile vid =>
        show (!(((markDeleted s S).versions.filter
            (versionReclaimable (markDeleted s S))).any
            fun v => decide (v.id = vid))) = !decide (vid ∈ S)
        by_cases hin : vid ∈ S
        · have hany : (((markDeleted s S).versions.filter
              (versionReclaimable (markDeleted s S))).any
              fun v => decide (v.id = vid)) = true := by
            rw [List.any_eq_true]
            obtain ⟨v, hv, hvid⟩ := hSrows vid hin
            refine ⟨if v.id ∈ S then { v with object_state := ObjectState.DELETED }
                    else v, ?_, ?_⟩
            · refine List.mem_filter.mpr ⟨?_, ?_⟩
              · show _ ∈ s.versions.map
                  (fun v => if v.id ∈ S then { v with object_state := ObjectState.DELETED }
                            else v)
                exact List.mem_map.mpr ⟨v, hv, rfl⟩
              · rw [hrec v hv]
                exact decide_eq_true (by rw [hvid]; exact hin)
            · have hgid : (if v.id ∈ S then { v with object_state := ObjectState.DELETED }
                  else v).id = v.id := by
                split
                · rfl
                · rfl
              exact decide_eq_true (by rw [hgid, hvid])
          rw [hany, decide_eq_true hin]
        · have hany : (((markDeleted s S).versions.filter
              (versionReclaimable (markDeleted s S))).any
              fun v => decide (v.id = vid)) = false := by
            apply List.any_eq_false.mpr
            intro w hw
            rcases List.mem_filter.mp hw with ⟨hwm, hwrec⟩
            rcases List.mem_map.mp (show w ∈ s.versions.map
                (fun v => if v.id ∈ S then { v with object_state := ObjectState.DELETED }
                          else v) from hwm) with ⟨v, hv, hgw⟩
            simp only [decide_eq_true_eq]
            intro heq
            rw [← hgw, hrec v hv] at hwrec
            have hvin : v.id ∈ S := of_decide_eq_true hwrec
            have hgid : (if v.id ∈ S then { v with object_state := ObjectState.DELETED }
                else v).id = v.id := by
              split
              · rfl
              · rfl
            rw [← hgw, hgid] at heq
            exact hin (heq ▸ hvin)
          rw [hany]
          simp [hin]

/-- Witness for `gc_removes_deleted_versions`: a live bucket with two
COMMITTED versions and their files; marking version 1 DELETED and running
one scan removes exactly row 1 and file 1. -/
theorem gc_removes_deleted_versions_witness :
    (WF deletedVersionStore ∧ AllBucketsLive deletedVersionStore ∧
      ChainsComplete deletedVersionStore ∧ MarkersNotDeleted deletedVersionStore) ∧
    (gc_process (markDeleted deletedVersionStore [1])).versions =
      (deletedVersionStore.versions.filter fun v => !decide (v.id ∈ [1])) :=
  ⟨⟨by decide, by decide, by decide, by decide⟩,
   (((gc_removes_deleted_versions deletedVersionStore (by decide) (by decide)
      (by decide) (by decide)).2 (by decide) (by decide)).2 [1]
      (by decide) (by decide)).1⟩

end SFS
